import Mathlib

/-!
# Verification of the awake-lock fallback-strategy orchestration engine

A shallow embedding of the core of the `awake-lock` TypeScript library:
the sentinel lifecycle of the four capability strategies
(`ScreenWakeLockStrategy`, `VideoElementStrategy`, `AudioContextStrategy`,
`TimerStrategy`), the `PermissionManager` cache and prompt logic, and the
`WakeLock` orchestrator (`request`, `release`, `tryStrategies`,
`isSupported`).

Modelling conventions:
* JavaScript objects referenced from several places (sentinels) live in an
  explicit heap, a list of `(id, record)` pairs keyed by numeric ids; object
  identity is identity of ids.
* `async` methods are modelled as pure state transformers; the single JS
  thread means every `await` of an in-repo promise runs its body to
  completion before the caller resumes, so sequencing is ordinary function
  composition.
* Fallible platform calls are driven by explicit environment records; code
  that throws returns `Except`.
* Listener invocations are recorded in an output list of listener ids; event
  emissions are recorded in an output list of `WLEvent`s; strategy
  acquisition attempts are recorded in an output list of strategy names.
-/

namespace AwakeLock

/-- Model of `WakeLockType` from `src/types.ts`: `'screen' | 'system'`. -/
inductive WLType where
  | screen
  | system
deriving DecidableEq, Repr

/-- Model of `WakeLockErrorCode` from `src/types.ts`. -/
inductive WLCode where
  | NOT_SUPPORTED
  | PERMISSION_DENIED
  | INVALID_STATE
  | TIMEOUT
  | BATTERY_LOW
  | STRATEGY_FAILED
  | UNKNOWN
deriving DecidableEq, Repr

/-- Model of `WakeLockError` from `src/types.ts` (message, code, optional strategy
name; the wrapped original platform error is not modelled). -/
structure WLErr where
  message : String
  code : WLCode
  strategy : Option String
deriving DecidableEq, Repr

/-- The orchestrator notifications of `WakeLockEvents` that the claims talk
about (`enabled`, `disabled`, `error`, `fallback`).  The `fallback` fields
`fromName`/`toName` stand for the source's `from`/`to`. -/
inductive WLEvent where
  | enabled (type : WLType) (strategy : String)
  | disabled (type : WLType) (reason : String)
  | error (e : WLErr)
  | fallback (fromName toName reason : String)
deriving DecidableEq, Repr

/-- Model of `PermissionState` of the web platform: `granted`, `denied`, `prompt`. -/
inductive PermState where
  | granted
  | denied
  | prompt
deriving DecidableEq, Repr

/-! ## Association-list heaps

JS `Map`s and object heaps are modelled as association lists.  `hget` is
`Map.get`, `hset` updates the record stored under an existing key (object
mutation through a reference), `hput` is `Map.set` for a fresh key, and
`herase` is `Map.delete`. -/

/-- Look up a key in an association list (first match, like `Map.get`). -/
def hget {κ α : Type} [DecidableEq κ] (k : κ) : List (κ × α) → Option α
  | [] => none
  | (k', v) :: t => if k' = k then some v else hget k t

/-- Overwrite the value stored under every occurrence of a key (mutation of
the object a reference points to). -/
def hset {κ α : Type} [DecidableEq κ] (k : κ) (v : α) : List (κ × α) → List (κ × α)
  | [] => []
  | (k', v') :: t =>
    if k' = k then (k', v) :: hset k v t else (k', v') :: hset k v t

/-- Model of `Map.delete`: drop every entry with the given key. -/
def herase {κ α : Type} [DecidableEq κ] (k : κ) : List (κ × α) → List (κ × α)
  | [] => []
  | (k', v') :: t => if k' = k then herase k t else (k', v') :: herase k t

/-- Model of `Map.set`: update the entry in place when the key is present, append it
otherwise (JS `Map` insertion-order semantics). -/
def hput {κ α : Type} [DecidableEq κ] (k : κ) (v : α) (l : List (κ × α)) :
    List (κ × α) :=
  if (hget k l).isSome then hset k v l else l ++ [(k, v)]


/-! ## Strategy sentinels

`InternalWakeLockSentinel` (`src/types.ts`): `type`, `_released`, and the
`_releaseListeners` set.  Listeners are identified by `Nat` ids; the TS `Set`
is a duplicate-free insertion-ordered collection, modelled as a list.  The
`released` getter of the timer/video/audio sentinels returns `_released`. -/

/-- Model of `InternalWakeLockSentinel` as created by `TimerStrategy.createSentinel`,
`VideoElementStrategy.createSentinel` and `AudioContextStrategy.createSentinel`. -/
structure InternalSentinel where
  type : WLType
  _released : Bool
  _releaseListeners : List Nat
deriving DecidableEq, Repr

/-- Model of `sentinel.addEventListener('release', listener)` for the timer/video/audio
sentinels: adds the listener to the `_releaseListeners` set. -/
def InternalSentinel.addReleaseListener (sent : InternalSentinel) (l : Nat) :
    InternalSentinel :=
  { sent with _releaseListeners := sent._releaseListeners ++ [l] }

/-! ### TimerStrategy (`src/strategies/TimerStrategy.ts`) -/

/-- The mutable state of a `TimerStrategy` instance: the heap of all sentinels
it ever created (by id) and the key set of the `activeTimers` map.  The timer
entry's platform resources (interval id, worker, script URL) do not influence
the lifecycle logic and are not modelled. -/
structure TimerStrategyState where
  sentinels : List (Nat × InternalSentinel)
  activeTimers : List Nat
deriving DecidableEq, Repr

/-- Model of `TimerStrategy.releaseSentinel(sentinelId, timer)`: if the sentinel is
already released, return at once; otherwise clean up the timer resources
(`_cleanupFails` records whether that cleanup throws — the error is caught and
logged, so it does not affect the state transition), then in the `finally`
block mark the sentinel released, delete it from `activeTimers`, invoke every
listener in `_releaseListeners`, and clear the listener set.  Returns the new
state and the listener ids invoked, in order. -/
def TimerStrategy.releaseSentinel (_cleanupFails : Bool)
    (s : TimerStrategyState) (sentinelId : Nat) : TimerStrategyState × List Nat :=
  match hget sentinelId s.sentinels with
  | none => (s, [])
  | some sent =>
    if sent._released then (s, [])
    else
      ({ sentinels := hset sentinelId
           { sent with _released := true, _releaseListeners := [] } s.sentinels,
         activeTimers := s.activeTimers.erase sentinelId },
       sent._releaseListeners)

/-- The `release()` method of a timer sentinel
(`TimerStrategy.createSentinel`): if `_released`, return; otherwise look the
timer entry up in `activeTimers` and, when present, run
`releaseSentinel`. -/
def TimerStrategy.sentinelRelease (cleanupFails : Bool)
    (s : TimerStrategyState) (sentinelId : Nat) : TimerStrategyState × List Nat :=
  match hget sentinelId s.sentinels with
  | none => (s, [])
  | some sent =>
    if sent._released then (s, [])
    else if sentinelId ∈ s.activeTimers then
      TimerStrategy.releaseSentinel cleanupFails s sentinelId
    else (s, [])

/-- The per-entry loop of `TimerStrategy.release()`: release each snapshotted
entry in turn, each wrapped in `.catch(console.warn)` (so one entry's failure
never stops the rest). -/
def TimerStrategy.releaseLoop (cleanupFails : Nat → Bool) :
    TimerStrategyState → List Nat → TimerStrategyState × List Nat
  | s, [] => (s, [])
  | s, id :: rest =>
    let r := TimerStrategy.releaseSentinel (cleanupFails id) s id
    let r' := TimerStrategy.releaseLoop cleanupFails r.1 rest
    (r'.1, r.2 ++ r'.2)

/-- Model of `TimerStrategy.release()`: snapshot `activeTimers`, release every entry
(tolerating individual failures), `Promise.allSettled`, then clear the map.
Returns the new state, the snapshot of ids whose release was attempted, and
all listener invocations. -/
def TimerStrategy.release (cleanupFails : Nat → Bool) (s : TimerStrategyState) :
    TimerStrategyState × List Nat × List Nat :=
  let r := TimerStrategy.releaseLoop cleanupFails s s.activeTimers
  ({ r.1 with activeTimers := [] }, s.activeTimers, r.2)

/-! ### VideoElementStrategy (`src/strategies/VideoElementStrategy.ts`)

Same sentinel lifecycle as the timer strategy; the map is `activeElements`
and the cleanup tears down the hidden video element. -/

/-- State of a `VideoElementStrategy` instance: sentinel heap plus the key set
of the `activeElements` map. -/
structure VideoStrategyState where
  sentinels : List (Nat × InternalSentinel)
  activeElements : List Nat
deriving DecidableEq, Repr

/-- Model of `VideoElementStrategy.releaseSentinel(sentinelId, video, sentinel)`:
guard on `_released`; cleanup (pause/unload/remove the element — errors caught
and logged); `finally`: mark released, delete from `activeElements`, notify
listeners, clear the set. -/
def VideoElementStrategy.releaseSentinel (_cleanupFails : Bool)
    (s : VideoStrategyState) (sentinelId : Nat) : VideoStrategyState × List Nat :=
  match hget sentinelId s.sentinels with
  | none => (s, [])
  | some sent =>
    if sent._released then (s, [])
    else
      ({ sentinels := hset sentinelId
           { sent with _released := true, _releaseListeners := [] } s.sentinels,
         activeElements := s.activeElements.erase sentinelId },
       sent._releaseListeners)

/-- The `release()` method of a video sentinel: guard on `_released`, then
release through the strategy when the element is still tracked. -/
def VideoElementStrategy.sentinelRelease (cleanupFails : Bool)
    (s : VideoStrategyState) (sentinelId : Nat) : VideoStrategyState × List Nat :=
  match hget sentinelId s.sentinels with
  | none => (s, [])
  | some sent =>
    if sent._released then (s, [])
    else if sentinelId ∈ s.activeElements then
      VideoElementStrategy.releaseSentinel cleanupFails s sentinelId
    else (s, [])

/-- The per-entry loop of `VideoElementStrategy.release()`. -/
def VideoElementStrategy.releaseLoop (cleanupFails : Nat → Bool) :
    VideoStrategyState → List Nat → VideoStrategyState × List Nat
  | s, [] => (s, [])
  | s, id :: rest =>
    let r := VideoElementStrategy.releaseSentinel (cleanupFails id) s id
    let r' := VideoElementStrategy.releaseLoop cleanupFails r.1 rest
    (r'.1, r.2 ++ r'.2)

/-- Model of `VideoElementStrategy.release()`: release every tracked element with
per-item `.catch`, `Promise.allSettled`, then clear `activeElements`. -/
def VideoElementStrategy.release (cleanupFails : Nat → Bool)
    (s : VideoStrategyState) : VideoStrategyState × List Nat × List Nat :=
  let r := VideoElementStrategy.releaseLoop cleanupFails s s.activeElements
  ({ r.1 with activeElements := [] }, s.activeElements, r.2)

/-! ### AudioContextStrategy (`src/strategies/AudioContextStrategy.ts`)

Same sentinel lifecycle again; the map is `activeContexts` and the cleanup
stops the oscillator and closes the audio context. -/

/-- State of an `AudioContextStrategy` instance: sentinel heap plus the key
set of the `activeContexts` map. -/
structure AudioStrategyState where
  sentinels : List (Nat × InternalSentinel)
  activeContexts : List Nat
deriving DecidableEq, Repr

/-- Model of `AudioContextStrategy.releaseSentinel(sentinelId, audio)`: guard on
`_released`; cleanup (stop oscillator, disconnect, close context — errors
caught and logged); `finally`: mark released, delete from `activeContexts`,
notify listeners, clear the set. -/
def AudioContextStrategy.releaseSentinel (_cleanupFails : Bool)
    (s : AudioStrategyState) (sentinelId : Nat) : AudioStrategyState × List Nat :=
  match hget sentinelId s.sentinels with
  | none => (s, [])
  | some sent =>
    if sent._released then (s, [])
    else
      ({ sentinels := hset sentinelId
           { sent with _released := true, _releaseListeners := [] } s.sentinels,
         activeContexts := s.activeContexts.erase sentinelId },
       sent._releaseListeners)

/-- The `release()` method of an audio sentinel: guard on `_released`, then
release through the strategy when the context is still tracked. -/
def AudioContextStrategy.sentinelRelease (cleanupFails : Bool)
    (s : AudioStrategyState) (sentinelId : Nat) : AudioStrategyState × List Nat :=
  match hget sentinelId s.sentinels with
  | none => (s, [])
  | some sent =>
    if sent._released then (s, [])
    else if sentinelId ∈ s.activeContexts then
      AudioContextStrategy.releaseSentinel cleanupFails s sentinelId
    else (s, [])

/-- The per-entry loop of `AudioContextStrategy.release()`. -/
def AudioContextStrategy.releaseLoop (cleanupFails : Nat → Bool) :
    AudioStrategyState → List Nat → AudioStrategyState × List Nat
  | s, [] => (s, [])
  | s, id :: rest =>
    let r := AudioContextStrategy.releaseSentinel (cleanupFails id) s id
    let r' := AudioContextStrategy.releaseLoop cleanupFails r.1 rest
    (r'.1, r.2 ++ r'.2)

/-- Model of `AudioContextStrategy.release()`: release every tracked context with
per-item `.catch`, `Promise.allSettled`, then clear `activeContexts`. -/
def AudioContextStrategy.release (cleanupFails : Nat → Bool)
    (s : AudioStrategyState) : AudioStrategyState × List Nat × List Nat :=
  let r := AudioContextStrategy.releaseLoop cleanupFails s s.activeContexts
  ({ r.1 with activeContexts := [] }, s.activeContexts, r.2)

/-! ### ScreenWakeLockStrategy (`ScreenWakeLockStrategy.ts`, provided as
`src/unnamed/part_007`)

The native `WakeLockSentinel` is a platform object.  Per the Screen Wake Lock
platform contract — which `createWrappedSentinel` itself relies on by
resubscribing to the native `release` event — releasing the native lock fires
a `release` event at the native sentinel, invoking every listener registered
on it.  `createWrappedSentinel` registers, in order: the creation-time
resubscription closure (which flips `_released` and drops the wrapped
sentinel from `activeSentinels` if not already released), and then every
listener the consumer adds through `addEventListener` (which is added to BOTH
the wrapped `_releaseListeners` set and the native sentinel). -/

/-- The wrapped sentinel built by
`ScreenWakeLockStrategy.createWrappedSentinel`: `_released` plus the
`_releaseListeners` set.  Its `released` getter returns
`_released || nativeSentinel.released`. -/
structure WrappedSentinel where
  type : WLType
  _released : Bool
  _releaseListeners : List Nat
deriving DecidableEq, Repr

/-- The platform's native `WakeLockSentinel`, as far as the wrapper observes
it: its `released` flag and the consumer listeners that
`createWrappedSentinel.addEventListener` registered on it (the creation-time
resubscription closure is additionally always registered and is modelled
explicitly in `ScreenWakeLockStrategy.sentinelRelease`). -/
structure NativeSentinel where
  released : Bool
  listeners : List Nat
deriving DecidableEq, Repr

/-- State of a `ScreenWakeLockStrategy` instance: the heap of
(wrapped, native) sentinel pairs by id, and the key set of
`activeSentinels`. -/
structure ScreenStrategyState where
  sentinels : List (Nat × (WrappedSentinel × NativeSentinel))
  activeSentinels : List Nat
deriving DecidableEq, Repr

/-- The `released` getter of the wrapped sentinel:
`this._released || nativeSentinel.released`. -/
def WrappedSentinel.releasedGetter (p : WrappedSentinel × NativeSentinel) : Bool :=
  p.1._released || p.2.released

/-- Model of `wrappedSentinel.addEventListener('release', listener)`: adds the
listener to the wrapped `_releaseListeners` set AND to the native sentinel's
own `release` listeners. -/
def ScreenWakeLockStrategy.addReleaseListener (s : ScreenStrategyState)
    (id l : Nat) : ScreenStrategyState :=
  match hget id s.sentinels with
  | none => s
  | some (w, n) =>
    let w' := { w with _releaseListeners := w._releaseListeners ++ [l] }
    let n' := { n with listeners := n.listeners ++ [l] }
    { s with sentinels := hset id (w', n') s.sentinels }

/-- The `release()` method of the wrapped sentinel: if `_released`, return.
Otherwise `await nativeSentinel.release()` (the platform releases the lock
and queues its `release` event task); the `finally` block then sets
`_released`, deletes the wrapped sentinel from `activeSentinels`, invokes
every listener in `_releaseListeners` and clears that set; finally the queued
native `release` event runs: the creation-time resubscription closure finds
`_released` already true, and every consumer listener registered on the
native sentinel (never removed) is invoked once more.  Returns the new state
and the listener invocations in order. -/
def ScreenWakeLockStrategy.sentinelRelease (s : ScreenStrategyState)
    (id : Nat) : ScreenStrategyState × List Nat :=
  match hget id s.sentinels with
  | none => (s, [])
  | some (w, n) =>
    if w._released then (s, [])
    else
      let w' := { w with _released := true, _releaseListeners := ([] : List Nat) }
      let n' := { n with released := true }
      ({ sentinels := hset id (w', n') s.sentinels,
         activeSentinels := s.activeSentinels.erase id },
       w._releaseListeners ++ n.listeners)

/-- The per-entry loop of `ScreenWakeLockStrategy.release()`: each sentinel's
`release()` wrapped in `.catch(console.warn)`. -/
def ScreenWakeLockStrategy.releaseLoop :
    ScreenStrategyState → List Nat → ScreenStrategyState × List Nat
  | s, [] => (s, [])
  | s, id :: rest =>
    let r := ScreenWakeLockStrategy.sentinelRelease s id
    let r' := ScreenWakeLockStrategy.releaseLoop r.1 rest
    (r'.1, r.2 ++ r'.2)

/-- Model of `ScreenWakeLockStrategy.release()`: release every tracked sentinel with
per-item `.catch`, `Promise.allSettled`, then clear `activeSentinels`. -/
def ScreenWakeLockStrategy.release (s : ScreenStrategyState) :
    ScreenStrategyState × List Nat × List Nat :=
  let r := ScreenWakeLockStrategy.releaseLoop s s.activeSentinels
  ({ r.1 with activeSentinels := [] }, s.activeSentinels, r.2)

/-! ## PermissionManager (`PermissionManager.ts`, provided as
`src/unnamed/part_006`) -/

/-- The platform environment a `PermissionManager` runs against: whether the
code runs server-side, the current clock (`Date.now()`), whether
`navigator.permissions.query` exists, and the result of querying a permission
by name (`none` models both an unavailable capability and a query that threw,
which `checkPermission` in `utils/helpers.ts` converts to `null`). -/
structure PMEnv where
  ssr : Bool
  now : Nat
  permissionsSupported : Bool
  queryResult : String → Option PermState

/-- Mutable state of a `PermissionManager`: the `permissionCache` and
`cacheTimestamps` maps, keyed by the cache key string. -/
structure PMState where
  permissionCache : List (String × PermState)
  cacheTimestamps : List (String × Nat)
deriving DecidableEq, Repr

/-- Model of `cacheExpiryTime = 5 * 60 * 1000` (5 minutes). -/
def cacheExpiryTime : Nat := 5 * 60 * 1000

/-- The cache key `` `wake-lock-${type}` `` for a capability kind. -/
def cacheKeyOf : WLType → String
  | WLType.screen => "wake-lock-screen"
  | WLType.system => "wake-lock-system"

/-- The permission name `'wake-lock'`. -/
def wakeLockPermName : String := "wake-lock"

/-- The fallback permission name `'screen-wake-lock'`. -/
def screenWakeLockPermName : String := "screen-wake-lock"

/-- Model of `PermissionManager.getCachedPermission(key)`: when the stored timestamp
is absent or falsy (`!timestamp`, i.e. `0`) or older than the expiry
(`Date.now() - timestamp > cacheExpiryTime`), delete the entry from both maps
and report a miss; otherwise return the cached state (`?? null`). -/
def PermissionManager.getCachedPermission (env : PMEnv) (s : PMState)
    (key : String) : PMState × Option PermState :=
  match hget key s.cacheTimestamps with
  | none =>
      ({ permissionCache := herase key s.permissionCache,
         cacheTimestamps := herase key s.cacheTimestamps }, none)
  | some timestamp =>
      if timestamp = 0 ∨ env.now - timestamp > cacheExpiryTime then
        ({ permissionCache := herase key s.permissionCache,
           cacheTimestamps := herase key s.cacheTimestamps }, none)
      else (s, hget key s.permissionCache)

/-- Model of `PermissionManager.setCachedPermission(key, permission)`: store the state
and stamp it with `Date.now()`. -/
def PermissionManager.setCachedPermission (env : PMEnv) (s : PMState)
    (key : String) (permission : PermState) : PMState :=
  { permissionCache := hput key permission s.permissionCache,
    cacheTimestamps := hput key env.now s.cacheTimestamps }

/-- Model of `PermissionManager.checkSpecificPermission(name)`: `null` when the
Permissions API is unsupported, otherwise the query result (errors are caught
and returned as `null`). -/
def PermissionManager.checkSpecificPermission (env : PMEnv) (name : String) :
    Option PermState :=
  if env.permissionsSupported then env.queryResult name else none

/-- Model of `PermissionManager.checkWakeLockPermission(type, passive)`: `null` in
SSR; otherwise consult the cache (which may expire the entry); on a miss
query `'wake-lock'`, then for the screen kind `'screen-wake-lock'`, caching
and returning the first definite answer; if nothing answered and `passive`,
cache and return `granted`; otherwise `null`.  Nothing in the body can throw
(`checkSpecificPermission` swallows query errors), so the `catch` branch of
the source is unreachable and the function is total. -/
def PermissionManager.checkWakeLockPermission (env : PMEnv) (s : PMState)
    (type : WLType) (passive : Bool) : PMState × Option PermState :=
  if env.ssr then (s, none)
  else
    let cacheKey := cacheKeyOf type
    let r := PermissionManager.getCachedPermission env s cacheKey
    match r.2 with
    | some cached => (r.1, some cached)
    | none =>
      match PermissionManager.checkSpecificPermission env wakeLockPermName with
      | some wakeLockPermission =>
          (PermissionManager.setCachedPermission env r.1 cacheKey wakeLockPermission,
           some wakeLockPermission)
      | none =>
        let tail :=
          if passive then
            (PermissionManager.setCachedPermission env r.1 cacheKey PermState.granted,
             some PermState.granted)
          else (r.1, none)
        if type = WLType.screen then
          match PermissionManager.checkSpecificPermission env screenWakeLockPermName with
          | some screenPermission =>
              (PermissionManager.setCachedPermission env r.1 cacheKey screenPermission,
               some screenPermission)
          | none => tail
        else tail

/-- Model of `PermissionManager.canRequestWithoutPrompt(type)`: `false` in SSR;
otherwise check the permission in passive mode and answer `true` exactly when
the state is definitively `granted` or `denied`. -/
def PermissionManager.canRequestWithoutPrompt (env : PMEnv) (s : PMState)
    (type : WLType) : PMState × Bool :=
  if env.ssr then (s, false)
  else
    let r := PermissionManager.checkWakeLockPermission env s type true
    (r.1, decide (r.2 = some PermState.granted ∨ r.2 = some PermState.denied))

/-! ## The WakeLock orchestrator (`WakeLock.ts`, second half of
`src/src/types.ts`)

The orchestrator's strategies are identified by name; the environment says
whether a given strategy's `request` resolves (creating a fresh sentinel in
that strategy's active set) or rejects with a given `WakeLockError`.  The
`PerformanceMonitor` is reduced to its running flag plus the fact —
guaranteed by `measureStrategy`, which only wraps the operation in
before/after snapshots — that measuring neither alters the operation's
outcome nor swallows its rejection. -/

/-- An orchestrator-level view of a strategy sentinel: its kind, its released
flag, the name of the owning strategy (`_strategy`), and whether
`setupSentinelListeners` registered the orchestrator's `onRelease` listener
on it. -/
structure OSentinel where
  type : WLType
  released : Bool
  _strategy : String
  orchListener : Bool
deriving DecidableEq, Repr

/-- Mutable state of a `WakeLock` instance together with its strategies:
the fresh-id counter, the sentinel heap, each strategy's active-sentinel id
set, the `activeSentinel` and `currentStrategy` slots, the `isReleasing`
re-entrancy flag, and whether the performance monitor is running. -/
structure OrchState where
  nextId : Nat
  sentinels : List (Nat × OSentinel)
  strategyActive : List (String × List Nat)
  activeSentinel : Option Nat
  currentStrategy : Option String
  isReleasing : Bool
  monitorRunning : Bool
deriving DecidableEq, Repr

/-- The orchestrator's resolved configuration (`Required<WakeLockOptions>`):
`strategies` is `this.strategies`, the priority-sorted, supported-filtered
strategy list fixed at construction. -/
structure WakeLockConfig where
  strategies : List String
  passive : Bool
  performanceMonitoring : Bool
deriving DecidableEq, Repr

/-- Model of `RequestOptions` (`src/types.ts`): the caller's per-request options; only
the fields the modelled control flow consults are kept. -/
structure ReqOptions where
  passive : Option Bool
  timeout : Option Nat
  retryAttempts : Option Nat
deriving DecidableEq, Repr

/-- The platform environment of one orchestrated request: SSR flag, the
answers of `permissionManager.canRequestWithoutPrompt` and
`permissionManager.isPassiveModeRecommended`, and for each strategy name
whether its `request` rejects (`some` error) or resolves (`none`). -/
structure OEnv where
  ssr : Bool
  canRequest : Bool
  passiveRecommended : Bool
  fail : String → Option WLErr

/-- Result of an orchestrator entry point: final state, the notifications
emitted in order, the strategy-acquisition calls performed in order (one
entry per `strategy.request` invocation), and the value returned or error
thrown to the caller. -/
structure RunResult where
  state : OrchState
  events : List WLEvent
  attempts : List String
  result : Except WLErr Nat
deriving Repr

/-- Message of the SSR guard error thrown at the top of `WakeLock.request`. -/
def ssrMsg : String := "Wake lock is not supported in server-side rendering"

/-- The SSR guard error of `WakeLock.request` (thrown before the `try`, so no
`error` notification accompanies it). -/
def ssrRequestError : WLErr :=
  { message := ssrMsg, code := WLCode.NOT_SUPPORTED, strategy := none }

/-- Message of the passive-mode fail-fast error. -/
def passiveDeniedMsg : String :=
  "Wake lock would require user prompt, but passive mode is enabled"

/-- The passive-mode fail-fast error of `WakeLock.request`. -/
def passiveDeniedError : WLErr :=
  { message := passiveDeniedMsg, code := WLCode.PERMISSION_DENIED, strategy := none }

/-- The fixed prefix of the all-strategies-failed message. -/
def allFailedMsgStart : String := "All wake lock strategies failed. Errors: "

/-- The separator of the aggregated error message (`join(', ')`). -/
def commaSep : String := ", "

/-- The final `STRATEGY_FAILED` error of `WakeLock.tryStrategies`,
aggregating every recorded per-strategy failure message. -/
def allFailedError (errors : List WLErr) : WLErr :=
  { message := allFailedMsgStart ++ String.intercalate commaSep (errors.map WLErr.message),
    code := WLCode.STRATEGY_FAILED, strategy := none }

/-- Message of the TypeError raised by reading `.type` of the nulled
`activeSentinel` slot in `WakeLock.release` (engine wording; only its
identity as a non-`WakeLockError` error matters). -/
def nullTypeMsg : String := "Cannot read properties of null (reading 'type')"

/-- That TypeError as wrapped by the `catch` of `WakeLock.release`
(`new WakeLockError(error.message, UNKNOWN)`). -/
def nullTypeError : WLErr :=
  { message := nullTypeMsg, code := WLCode.UNKNOWN, strategy := none }

/-- Reason string of the `disabled` notification emitted by `onRelease`. -/
def autoReleaseReason : String := "automatic-release"

/-- Reason string of the `disabled` notification in `WakeLock.release`. -/
def manualReleaseReason : String := "manual-release"

/-- Fallback strategy-name used by the `enabled` notification when
`currentStrategy` is unset. -/
def unknownName : String := "unknown"

/-- One `strategy.request(type, options)` call as the orchestrator sees it:
on the environment's failure verdict reject with that strategy's error; on
success create a fresh unreleased sentinel, append it to the strategy's
active set, and resolve with it. -/
def strategyRequest (env : OEnv) (name : String) (type : WLType)
    (s : OrchState) : OrchState × Except WLErr Nat :=
  match env.fail name with
  | some e => (s, Except.error e)
  | none =>
    let id := s.nextId
    let sent : OSentinel :=
      { type := type, released := false, _strategy := name, orchListener := false }
    let prev := (hget name s.strategyActive).getD []
    ({ s with nextId := id + 1,
              sentinels := s.sentinels ++ [(id, sent)],
              strategyActive := hput name (prev ++ [id]) s.strategyActive },
     Except.ok id)

/-- Model of `WakeLock.tryStrategies(type, options)`: walk the strategy list in order.
For each strategy, `measureStrategy` runs `strategy.request` once inside the
measurement wrapper; when that resolves, the `.then` continuation calls
`strategy.request` a second time and its sentinel is the one returned, with
`currentStrategy` set.  Any rejection is caught: the error is recorded, a
`fallback` notification naming this strategy and the next is emitted when a
next strategy exists, and the loop continues.  When the list is exhausted the
aggregated `STRATEGY_FAILED` error is thrown. -/
def WakeLock.tryStrategies (env : OEnv) (type : WLType) :
    List String → OrchState → List WLErr → RunResult
  | [], s, errors => ⟨s, [], [], Except.error (allFailedError errors)⟩
  | name :: rest, s, errors =>
    match strategyRequest env name type s with
    | (s1, Except.ok _) =>
      match strategyRequest env name type s1 with
      | (s2, Except.ok id) =>
          ⟨{ s2 with currentStrategy := some name }, [], [name, name], Except.ok id⟩
      | (s2, Except.error e) =>
          let fb : List WLEvent := match rest.head? with
            | some nxt => [WLEvent.fallback name nxt e.message]
            | none => []
          let r := WakeLock.tryStrategies env type rest s2 (errors ++ [e])
          ⟨r.state, fb ++ r.events, [name, name] ++ r.attempts, r.result⟩
    | (s1, Except.error e) =>
      let fb : List WLEvent := match rest.head? with
        | some nxt => [WLEvent.fallback name nxt e.message]
        | none => []
      let r := WakeLock.tryStrategies env type rest s1 (errors ++ [e])
      ⟨r.state, fb ++ r.events, [name] ++ r.attempts, r.result⟩

/-- Model of `WakeLock.setupSentinelListeners(sentinel)`: register the orchestrator's
`onRelease` listener on the adopted sentinel. -/
def WakeLock.setupSentinelListeners (s : OrchState) (id : Nat) : OrchState :=
  match hget id s.sentinels with
  | none => s
  | some sent =>
    { s with sentinels := hset id { sent with orchListener := true } s.sentinels }

/-- The body of `WakeLock.request` past its two early-return guards: merge
the passive flag (`options.passive ?? this.options.passive`); fail fast with
`PERMISSION_DENIED` when passive is requested, a prompt might be needed and
passive mode is recommended (the `catch` emits the `error` notification and
rethrows); otherwise start the monitor when configured, run `tryStrategies`,
and on success adopt the sentinel, wire `onRelease` and emit `enabled`. -/
def WakeLock.requestAcquire (cfg : WakeLockConfig) (env : OEnv) (type : WLType)
    (options : ReqOptions) (s : OrchState) : RunResult :=
  let passive := options.passive.getD cfg.passive
  if passive && !env.canRequest && env.passiveRecommended then
    ⟨s, [WLEvent.error passiveDeniedError], [], Except.error passiveDeniedError⟩
  else
    let s1 := if cfg.performanceMonitoring then { s with monitorRunning := true } else s
    let r := WakeLock.tryStrategies env type cfg.strategies s1 []
    match r.result with
    | Except.error e =>
        ⟨r.state, r.events ++ [WLEvent.error e], r.attempts, Except.error e⟩
    | Except.ok id =>
        let s2 := WakeLock.setupSentinelListeners
          { r.state with activeSentinel := some id } id
        ⟨s2, r.events ++ [WLEvent.enabled type (s2.currentStrategy.getD unknownName)],
         r.attempts, Except.ok id⟩

/-- Model of `WakeLock.request(type, options)`: throw `NOT_SUPPORTED` in SSR (before
the `try`, hence without an `error` notification); when an active, unreleased
sentinel exists return it unchanged; otherwise acquire. -/
def WakeLock.request (cfg : WakeLockConfig) (env : OEnv) (type : WLType)
    (options : ReqOptions) (s : OrchState) : RunResult :=
  if env.ssr then ⟨s, [], [], Except.error ssrRequestError⟩
  else
    match s.activeSentinel with
    | some id =>
      match hget id s.sentinels with
      | some sent =>
        if !sent.released then ⟨s, [], [], Except.ok id⟩
        else WakeLock.requestAcquire cfg env type options s
      | none => WakeLock.requestAcquire cfg env type options s
    | none => WakeLock.requestAcquire cfg env type options s

/-- Model of `WakeLock.release()`, driven by whether the delegated
`activeSentinel.release()` resolves (`underlying = none`) or rejects with an
error.  Early return when there is no active sentinel, it is already
released, or a release is in flight.  On a resolving delegate the owning
strategy has marked the sentinel released, removed it from its active set and
synchronously run the release listeners: when `onRelease` is registered it
emits `disabled`/`automatic-release`, nulls both slots and stops the monitor,
after which `release()`'s own `this.activeSentinel.type` dereferences `null`;
the resulting TypeError is caught and emitted as an `error` notification.
Only without that listener does the `disabled`/`manual-release` notification
survive.  On a rejecting delegate the `catch` emits the error.  The `finally`
always nulls both slots, resets `isReleasing` and stops the monitor.  The
third component is what the caller observes: `Except.ok ()` in every branch,
because every failure is caught inside. -/
def WakeLock.release (s : OrchState) (underlying : Option WLErr) :
    OrchState × List WLEvent × Except WLErr Unit :=
  match s.activeSentinel with
  | none => (s, [], Except.ok ())
  | some id =>
    match hget id s.sentinels with
    | none => (s, [], Except.ok ())
    | some sent =>
      if sent.released || s.isReleasing then (s, [], Except.ok ())
      else
        match underlying with
        | none =>
          let heap1 := hset id { sent with released := true } s.sentinels
          let owned := ((hget sent._strategy s.strategyActive).getD []).erase id
          let sactive1 := hput sent._strategy owned s.strategyActive
          if sent.orchListener then
            ({ s with sentinels := heap1, strategyActive := sactive1,
                      activeSentinel := none, currentStrategy := none,
                      isReleasing := false, monitorRunning := false },
             [WLEvent.disabled sent.type autoReleaseReason, WLEvent.error nullTypeError],
             Except.ok ())
          else
            ({ s with sentinels := heap1, strategyActive := sactive1,
                      activeSentinel := none, currentStrategy := none,
                      isReleasing := false, monitorRunning := false },
             [WLEvent.disabled sent.type manualReleaseReason],
             Except.ok ())
        | some e =>
          ({ s with activeSentinel := none, currentStrategy := none,
                    isReleasing := false, monitorRunning := false },
           [WLEvent.error e],
           Except.ok ())

/-- Model of `WakeLock.isSupported()`: `!isSSR() && this.strategies.length > 0`. -/
def WakeLock.isSupported (cfg : WakeLockConfig) (env : OEnv) : Bool :=
  !env.ssr && !cfg.strategies.isEmpty

/-- The error with which the environment makes a strategy reject; meaningful
whenever `env.fail` marks the strategy as failing. -/
def failErr (env : OEnv) (n : String) : WLErr := (env.fail n).getD ssrRequestError

/-- The message of a failing strategy's error. -/
def failMsg (env : OEnv) (n : String) : String := (failErr env n).message

/-- The `fallback` notifications produced by a run of consecutive failing
strategies: one per adjacent pair of the list, in order. -/
def fallbackChain (env : OEnv) (l : List String) : List WLEvent :=
  (l.zip l.tail).map fun p => WLEvent.fallback p.1 p.2 (failMsg env p.1)

/-- The two successive `strategy.request` calls a winning `tryStrategies`
iteration performs on the same strategy (one inside `measureStrategy`, one in
the `.then` continuation): the resulting state and the second call's
sentinel. -/
def adoptTwice (env : OEnv) (name : String) (type : WLType) (s : OrchState) :
    OrchState × Except WLErr Nat :=
  strategyRequest env name type (strategyRequest env name type s).1

/-! ## Concrete fixtures

Small concrete states and environments used to instantiate the theorems. -/

/-- The `name` of `ScreenWakeLockStrategy`. -/
def screenStratName : String := "screen-wake-lock"

/-- The `name` of `VideoElementStrategy`. -/
def videoStratName : String := "video-element"

/-- The `name` of `AudioContextStrategy`. -/
def audioStratName : String := "audio-context"

/-- The `name` of `TimerStrategy`. -/
def timerStratName : String := "timer"

/-- An empty per-request option record (`request(type)` with no options). -/
def noOptions : ReqOptions := { passive := none, timeout := none, retryAttempts := none }

/-- A browser environment in which every strategy acquisition succeeds. -/
def envAllOk : OEnv :=
  { ssr := false, canRequest := true, passiveRecommended := false, fail := fun _ => none }

/-- The default strategy list in priority order. -/
def defaultNames : List String :=
  [screenStratName, videoStratName, audioStratName, timerStratName]

/-- A default-like configuration over the four built-in strategies. -/
def cfgDefault : WakeLockConfig :=
  { strategies := defaultNames, passive := false, performanceMonitoring := true }

/-- A configuration whose strategy list is empty. -/
def cfgEmpty : WakeLockConfig :=
  { strategies := [], passive := false, performanceMonitoring := true }

/-- A two-strategy configuration for the fallback scenario. -/
def cfgTwo : WakeLockConfig :=
  { strategies := [screenStratName, videoStratName], passive := false,
    performanceMonitoring := true }

/-- The error with which the first strategy of the fallback scenario fails. -/
def errFirst : WLErr :=
  { message := "Screen Wake Lock request failed: boom",
    code := WLCode.NOT_SUPPORTED, strategy := some screenStratName }

/-- An environment in which `screen-wake-lock` fails with `errFirst` and
every other strategy succeeds. -/
def envFirstFails : OEnv :=
  { ssr := false, canRequest := true, passiveRecommended := false,
    fail := fun n => if n = screenStratName then some errFirst else none }

/-- An environment in which every strategy fails with a per-strategy error. -/
def envAllFail : OEnv :=
  { ssr := false, canRequest := true, passiveRecommended := false,
    fail := fun n => some { message := n ++ " failed",
                            code := WLCode.STRATEGY_FAILED, strategy := some n } }

/-- An environment in which a prompt might be needed and passive mode is
recommended. -/
def envPromptRisk : OEnv :=
  { ssr := false, canRequest := false, passiveRecommended := true, fail := fun _ => none }

/-- Options requesting passive mode. -/
def passiveOptions : ReqOptions :=
  { passive := some true, timeout := none, retryAttempts := none }

/-- A fresh orchestrator state: nothing acquired yet. -/
def orchEmpty : OrchState :=
  { nextId := 0, sentinels := [], strategyActive := [], activeSentinel := none,
    currentStrategy := none, isReleasing := false, monitorRunning := false }

/-- A screen-kind sentinel adopted by the orchestrator (release listener
wired by `setupSentinelListeners`). -/
def adoptedSentinel : OSentinel :=
  { type := WLType.screen, released := false, _strategy := timerStratName, orchListener := true }

/-- An orchestrator state holding `adoptedSentinel` as the active sentinel. -/
def orchActive : OrchState :=
  { nextId := 1, sentinels := [(0, adoptedSentinel)], strategyActive := [(timerStratName, [0])],
    activeSentinel := some 0, currentStrategy := some timerStratName, isReleasing := false,
    monitorRunning := true }

/-- A system-kind adopted sentinel. -/
def adoptedSystemSentinel : OSentinel :=
  { type := WLType.system, released := false, _strategy := timerStratName, orchListener := true }

/-- An orchestrator state holding a system-kind active sentinel. -/
def orchActiveSystem : OrchState :=
  { nextId := 1, sentinels := [(0, adoptedSystemSentinel)],
    strategyActive := [(timerStratName, [0])], activeSentinel := some 0,
    currentStrategy := some timerStratName, isReleasing := false, monitorRunning := true }

/-- A timer strategy state with one unreleased sentinel (id 0, listeners 7
and 8) tracked by `activeTimers`, and one already-released sentinel (id 1). -/
def timerSample : TimerStrategyState :=
  { sentinels :=
      [(0, { type := WLType.screen, _released := false, _releaseListeners := [7, 8] }),
       (1, { type := WLType.screen, _released := true, _releaseListeners := [] })],
    activeTimers := [0] }

/-- A video strategy state with two unreleased tracked sentinels. -/
def videoSample : VideoStrategyState :=
  { sentinels :=
      [(0, { type := WLType.screen, _released := false, _releaseListeners := [3] }),
       (1, { type := WLType.screen, _released := false, _releaseListeners := [4] })],
    activeElements := [0, 1] }

/-- An audio strategy state with two unreleased tracked sentinels. -/
def audioSample : AudioStrategyState :=
  { sentinels :=
      [(0, { type := WLType.screen, _released := false, _releaseListeners := [] }),
       (1, { type := WLType.screen, _released := false, _releaseListeners := [5] })],
    activeContexts := [0, 1] }

/-- A screen strategy state with one unreleased wrapped sentinel carrying one
consumer subscriber (listener 0), registered — as `addEventListener` does —
on both the wrapped and the native sentinel. -/
def screenSample : ScreenStrategyState :=
  { sentinels :=
      [(0, ({ type := WLType.screen, _released := false, _releaseListeners := [0] },
            { released := false, listeners := [0] }))],
    activeSentinels := [0] }

/-- A permission-manager environment: browser context, clock at 1000000 ms,
Permissions API present, `wake-lock` query indeterminate and
`screen-wake-lock` granted. -/
def pmEnvSample : PMEnv :=
  { ssr := false, now := 1000000, permissionsSupported := true,
    queryResult := fun n => if n = screenWakeLockPermName then some PermState.granted else none }

/-- A permission cache holding a `denied` entry for the screen kind stamped
at time 100 — more than 5 minutes before `pmEnvSample.now`. -/
def pmStale : PMState :=
  { permissionCache := [("wake-lock-screen", PermState.denied)],
    cacheTimestamps := [("wake-lock-screen", 100)] }

/-- A permission cache holding a `denied` entry for the screen kind stamped
at time 900000 — within 5 minutes of `pmEnvSample.now`. -/
def pmFresh : PMState :=
  { permissionCache := [("wake-lock-screen", PermState.denied)],
    cacheTimestamps := [("wake-lock-screen", 900000)] }

/-! ## Helper lemmas -/

theorem hget_hset_self {κ α : Type} [DecidableEq κ] (k : κ) (v : α)
    (l : List (κ × α)) : hget k (hset k v l) = (hget k l).map fun _ => v := by
  induction l with
  | nil => simp [hget, hset]
  | cons p t ih =>
    obtain ⟨k', v'⟩ := p
    by_cases h : k' = k <;> simp [hget, hset, h, ih]

theorem hget_hset_other {κ α : Type} [DecidableEq κ] (k j : κ) (v : α)
    (l : List (κ × α)) (hne : j ≠ k) : hget j (hset k v l) = hget j l := by
  induction l with
  | nil => simp [hset]
  | cons p t ih =>
    obtain ⟨k', v'⟩ := p
    by_cases h : k' = k
    · subst h
      simp [hget, hset, Ne.symm hne, ih]
    · simp [hget, hset, h, ih]

theorem hget_herase_self {κ α : Type} [DecidableEq κ] (k : κ)
    (l : List (κ × α)) : hget k (herase k l) = none := by
  induction l with
  | nil => simp [hget, herase]
  | cons p t ih =>
    obtain ⟨k', v'⟩ := p
    by_cases h : k' = k <;> simp [hget, herase, h, ih]

theorem herase_idem {κ α : Type} [DecidableEq κ] (k : κ)
    (l : List (κ × α)) : herase k (herase k l) = herase k l := by
  induction l with
  | nil => simp [herase]
  | cons p t ih =>
    obtain ⟨k', v'⟩ := p
    by_cases h : k' = k <;> simp [herase, h, ih]

theorem hget_append_of_none {κ α : Type} [DecidableEq κ] (k : κ)
    (l l' : List (κ × α)) (h : hget k l = none) :
    hget k (l ++ l') = hget k l' := by
  induction l with
  | nil => simp
  | cons p t ih =>
    obtain ⟨k', v'⟩ := p
    by_cases hk : k' = k
    · simp [hget, hk] at h
    · simp [hget, hk] at h ⊢
      exact ih h

theorem hget_append_of_some {κ α : Type} [DecidableEq κ] (k : κ)
    (l l' : List (κ × α)) (v : α) (h : hget k l = some v) :
    hget k (l ++ l') = some v := by
  induction l with
  | nil => simp [hget] at h
  | cons p t ih =>
    obtain ⟨k', v'⟩ := p
    by_cases hk : k' = k
    · simp [hget, hk] at h ⊢
      exact h
    · simp [hget, hk] at h ⊢
      exact ih h

theorem hget_hput_self {κ α : Type} [DecidableEq κ] (k : κ) (v : α)
    (l : List (κ × α)) : hget k (hput k v l) = some v := by
  unfold hput
  by_cases h : (hget k l).isSome
  · obtain ⟨w, hw⟩ := Option.isSome_iff_exists.mp h
    simp [h, hget_hset_self, hw]
  · have hnone : hget k l = none := Option.not_isSome_iff_eq_none.mp h
    simp [h, hget_append_of_none k l _ hnone, hget]

/-! ## Lemmas about the strategy loop -/

theorem tryStrategies_cons_fail (env : OEnv) (type : WLType) (n : String)
    (rest : List String) (s : OrchState) (errors : List WLErr) (e : WLErr)
    (he : env.fail n = some e) :
    WakeLock.tryStrategies env type (n :: rest) s errors =
      ⟨(WakeLock.tryStrategies env type rest s (errors ++ [e])).state,
       (match rest.head? with
        | some nxt => [WLEvent.fallback n nxt e.message]
        | none => []) ++
         (WakeLock.tryStrategies env type rest s (errors ++ [e])).events,
       n :: (WakeLock.tryStrategies env type rest s (errors ++ [e])).attempts,
       (WakeLock.tryStrategies env type rest s (errors ++ [e])).result⟩ := by
  conv_lhs => rw [WakeLock.tryStrategies]
  simp [strategyRequest, he]

theorem tryStrategies_cons_ok (env : OEnv) (type : WLType) (w : String)
    (rest : List String) (s : OrchState) (errors : List WLErr)
    (hw : env.fail w = none) :
    WakeLock.tryStrategies env type (w :: rest) s errors =
      ⟨{ (adoptTwice env w type s).1 with currentStrategy := some w }, [], [w, w],
       (adoptTwice env w type s).2⟩ := by
  conv_lhs => rw [WakeLock.tryStrategies]
  simp [strategyRequest, adoptTwice, hw]

theorem tryStrategies_allFail (env : OEnv) (type : WLType) :
    ∀ (names : List String) (s : OrchState) (errors : List WLErr),
      (∀ n ∈ names, (env.fail n).isSome) →
      WakeLock.tryStrategies env type names s errors =
        ⟨s, fallbackChain env names, names,
         Except.error (allFailedError (errors ++ names.map (failErr env)))⟩
  | [], s, errors, _ => by
      simp [WakeLock.tryStrategies, fallbackChain]
  | n :: rest, s, errors, h => by
      obtain ⟨e, he⟩ := Option.isSome_iff_exists.mp (h n (by simp))
      have ih := tryStrategies_allFail env type rest s (errors ++ [e])
        (fun m hm => h m (by simp [hm]))
      rw [tryStrategies_cons_fail env type n rest s errors e he, ih]
      cases rest with
      | nil => simp [fallbackChain, failErr, failMsg, he]
      | cons m rest' => simp [fallbackChain, failErr, failMsg, he]

theorem tryStrategies_success (env : OEnv) (type : WLType) (w : String)
    (rest : List String) (hw : env.fail w = none) :
    ∀ (failed : List String) (s : OrchState) (errors : List WLErr),
      (∀ n ∈ failed, (env.fail n).isSome) →
      WakeLock.tryStrategies env type (failed ++ w :: rest) s errors =
        ⟨{ (adoptTwice env w type s).1 with currentStrategy := some w },
         fallbackChain env (failed ++ [w]), failed ++ [w, w],
         (adoptTwice env w type s).2⟩
  | [], s, errors, _ => by
      rw [List.nil_append, tryStrategies_cons_ok env type w rest s errors hw]
      simp [fallbackChain]
  | n :: failed', s, errors, h => by
      obtain ⟨e, he⟩ := Option.isSome_iff_exists.mp (h n (by simp))
      have ih := tryStrategies_success env type w rest hw failed' s (errors ++ [e])
        (fun m hm => h m (by simp [hm]))
      rw [List.cons_append,
        tryStrategies_cons_fail env type n (failed' ++ w :: rest) s errors e he, ih]
      cases failed' with
      | nil => simp [fallbackChain, failErr, failMsg, he]
      | cons m failed'' => simp [fallbackChain, failErr, failMsg, he]

theorem tryStrategies_no_enabled (env : OEnv) (type : WLType) :
    ∀ (names : List String) (s : OrchState) (errors : List WLErr)
      (t : WLType) (st : String),
      WLEvent.enabled t st ∉ (WakeLock.tryStrategies env type names s errors).events
  | [], s, errors, t, st => by simp [WakeLock.tryStrategies]
  | n :: rest, s, errors, t, st => by
      cases hfn : env.fail n with
      | none =>
          rw [tryStrategies_cons_ok env type n rest s errors hfn]
          simp
      | some e =>
          have ih := tryStrategies_no_enabled env type rest s (errors ++ [e]) t st
          rw [tryStrategies_cons_fail env type n rest s errors e hfn]
          cases rest with
          | nil => simpa using ih
          | cons m rest' => simpa using ih

theorem setup_currentStrategy (s : OrchState) (id : Nat) :
    (WakeLock.setupSentinelListeners s id).currentStrategy = s.currentStrategy := by
  unfold WakeLock.setupSentinelListeners
  cases hget id s.sentinels <;> rfl

theorem setup_activeSentinel (s : OrchState) (id : Nat) :
    (WakeLock.setupSentinelListeners s id).activeSentinel = s.activeSentinel := by
  unfold WakeLock.setupSentinelListeners
  cases hget id s.sentinels <;> rfl

theorem setup_strategyActive (s : OrchState) (id : Nat) :
    (WakeLock.setupSentinelListeners s id).strategyActive = s.strategyActive := by
  unfold WakeLock.setupSentinelListeners
  cases hget id s.sentinels <;> rfl

theorem request_reduces (cfg : WakeLockConfig) (env : OEnv) (type : WLType)
    (options : ReqOptions) (s : OrchState) (hssr : env.ssr = false)
    (hact : s.activeSentinel = none) :
    WakeLock.request cfg env type options s =
      WakeLock.requestAcquire cfg env type options s := by
  simp [WakeLock.request, hssr, hact]

theorem requestAcquire_error_no_enabled (cfg : WakeLockConfig) (env : OEnv)
    (type : WLType) (options : ReqOptions) (s : OrchState) (e : WLErr)
    (h : (WakeLock.requestAcquire cfg env type options s).result = Except.error e)
    (t : WLType) (st : String) :
    WLEvent.enabled t st ∉ (WakeLock.requestAcquire cfg env type options s).events := by
  unfold WakeLock.requestAcquire at h ⊢
  by_cases hgate : (options.passive.getD cfg.passive && !env.canRequest &&
      env.passiveRecommended) = true
  · simp [hgate]
  · rw [Bool.not_eq_true] at hgate
    simp only [hgate, Bool.false_eq_true, if_false] at h ⊢
    rcases hr : WakeLock.tryStrategies env type cfg.strategies
        (if cfg.performanceMonitoring then { s with monitorRunning := true } else s) []
      with ⟨st2, evs, atts, res⟩
    have hne : WLEvent.enabled t st ∉ evs := by
      have hall := tryStrategies_no_enabled env type cfg.strategies
        (if cfg.performanceMonitoring then { s with monitorRunning := true } else s) [] t st
      rw [hr] at hall
      exact hall
    rw [hr] at h
    cases res with
    | error e' => simp [hne]
    | ok id => exact Except.noConfusion h

theorem request_error_no_enabled (cfg : WakeLockConfig) (env : OEnv)
    (type : WLType) (options : ReqOptions) (s : OrchState) (e : WLErr)
    (h : (WakeLock.request cfg env type options s).result = Except.error e)
    (t : WLType) (st : String) :
    WLEvent.enabled t st ∉ (WakeLock.request cfg env type options s).events := by
  unfold WakeLock.request at h ⊢
  by_cases hssr : env.ssr = true
  · simp [hssr]
  · rw [Bool.not_eq_true] at hssr
    simp only [hssr, Bool.false_eq_true, if_false] at h ⊢
    cases hact : s.activeSentinel with
    | none =>
        rw [hact] at h
        exact requestAcquire_error_no_enabled cfg env type options s e h t st
    | some id =>
        rw [hact] at h
        dsimp only at h ⊢
        cases hsent : hget id s.sentinels with
        | none =>
            rw [hsent] at h
            exact requestAcquire_error_no_enabled cfg env type options s e h t st
        | some sent =>
            rw [hsent] at h
            by_cases hrel : sent.released = true
            · simp only [hrel, Bool.not_true, Bool.false_eq_true, if_false] at h ⊢
              exact requestAcquire_error_no_enabled cfg env type options s e h t st
            · rw [Bool.not_eq_true] at hrel
              simp only [hrel, Bool.not_false, if_true] at h
              exact Except.noConfusion h

/-! ## C4: fallback and enabled notifications, in order -/

/-- C4: with a two-strategy configuration whose first strategy fails and
second succeeds, `WakeLock.request` emits exactly one `fallback` notification
naming the failed and the next strategy followed by exactly one `enabled`
notification naming the succeeding strategy, and resolves; moreover (for all
inputs) an all-failing strategy list produces exactly the chain of adjacent
`fallback` notifications — one per failed attempt that has a successor and
none after the chain concludes — and a rejected request never contains an
`enabled` notification, so `enabled` appears only after an acquisition
resolved. -/
theorem fallback_then_enabled_order (cfg : WakeLockConfig) (env : OEnv)
    (type : WLType) (options : ReqOptions) (s : OrchState) (A B : String)
    (eA : WLErr) (hssr : env.ssr = false) (hact : s.activeSentinel = none)
    (hp : options.passive.getD cfg.passive = false)
    (hstr : cfg.strategies = [A, B]) (hfA : env.fail A = some eA)
    (hfB : env.fail B = none) :
    (WakeLock.request cfg env type options s).events =
      [WLEvent.fallback A B eA.message, WLEvent.enabled type B] ∧
    (∃ id, (WakeLock.request cfg env type options s).result = Except.ok id) ∧
    (∀ (env' : OEnv) (type' : WLType) (names : List String) (s' : OrchState)
       (errors : List WLErr), (∀ n ∈ names, (env'.fail n).isSome) →
       (WakeLock.tryStrategies env' type' names s' errors).events =
         fallbackChain env' names) ∧
    (∀ (cfg' : WakeLockConfig) (env' : OEnv) (type' : WLType)
       (options' : ReqOptions) (s' : OrchState) (e : WLErr),
       (WakeLock.request cfg' env' type' options' s').result = Except.error e →
       ∀ t st, WLEvent.enabled t st ∉
         (WakeLock.request cfg' env' type' options' s').events) := by
  have hfailedA : ∀ n ∈ [A], (env.fail n).isSome := by simp [hfA]
  have hts := tryStrategies_success env type B [] hfB [A]
    (if cfg.performanceMonitoring then { s with monitorRunning := true } else s)
    [] hfailedA
  simp only [List.cons_append, List.nil_append] at hts
  have hmain : WakeLock.request cfg env type options s =
      WakeLock.requestAcquire cfg env type options s :=
    request_reduces cfg env type options s hssr hact
  have hcore : (WakeLock.requestAcquire cfg env type options s).events =
        [WLEvent.fallback A B eA.message, WLEvent.enabled type B] ∧
      (WakeLock.requestAcquire cfg env type options s).result =
        Except.ok ((if cfg.performanceMonitoring then
          { s with monitorRunning := true } else s).nextId + 1) := by
    unfold WakeLock.requestAcquire
    simp only [hp, Bool.false_and, Bool.false_eq_true, if_false, hstr]
    rw [hts]
    simp [adoptTwice, strategyRequest, hfB, fallbackChain, failMsg, failErr, hfA,
      setup_currentStrategy]
  refine ⟨by rw [hmain]; exact hcore.1, ⟨_, by rw [hmain]; exact hcore.2⟩, ?_, ?_⟩
  · intro env' type' names s' errors hf
    rw [tryStrategies_allFail env' type' names s' errors hf]
  · intro cfg' env' type' options' s' e h t st
    exact request_error_no_enabled cfg' env' type' options' s' e h t st

/-- Witness for C4 at the concrete two-strategy configuration where
`screen-wake-lock` fails with `errFirst` and `video-element` succeeds. -/
theorem fallback_then_enabled_order_witness :
    (WakeLock.request cfgTwo envFirstFails WLType.screen noOptions orchEmpty).events =
      [WLEvent.fallback screenStratName videoStratName errFirst.message,
       WLEvent.enabled WLType.screen videoStratName] :=
  (fallback_then_enabled_order cfgTwo envFirstFails WLType.screen noOptions orchEmpty
    screenStratName videoStratName errFirst rfl rfl rfl rfl rfl rfl).1

/-! ## C5: exhaustion of the strategy chain -/

/-- C5: if every strategy in the configured list fails, `WakeLock.request`
rejects with the `STRATEGY_FAILED` error whose message aggregates all
per-strategy failure messages; and when the strategy list is empty it does so
having attempted no strategy at all (and `isSupported()` is `false`). -/
theorem all_fail_strategy_failed (cfg : WakeLockConfig) (env : OEnv)
    (type : WLType) (options : ReqOptions) (s : OrchState)
    (hssr : env.ssr = false) (hact : s.activeSentinel = none)
    (hp : options.passive.getD cfg.passive = false)
    (hf : ∀ n ∈ cfg.strategies, (env.fail n).isSome) :
    (WakeLock.request cfg env type options s).result =
      Except.error (allFailedError (cfg.strategies.map (failErr env))) ∧
    (allFailedError (cfg.strategies.map (failErr env))).code =
      WLCode.STRATEGY_FAILED ∧
    (allFailedError (cfg.strategies.map (failErr env))).message =
      allFailedMsgStart ++ String.intercalate commaSep
        (cfg.strategies.map fun n => (failErr env n).message) ∧
    (WakeLock.request cfg env type options s).attempts = cfg.strategies ∧
    (cfg.strategies = [] →
      (WakeLock.request cfg env type options s).attempts = [] ∧
      WakeLock.isSupported cfg env = false) := by
  have hts := tryStrategies_allFail env type cfg.strategies
    (if cfg.performanceMonitoring then { s with monitorRunning := true } else s) [] hf
  have hcore : (WakeLock.requestAcquire cfg env type options s).result =
        Except.error (allFailedError (cfg.strategies.map (failErr env))) ∧
      (WakeLock.requestAcquire cfg env type options s).attempts = cfg.strategies := by
    unfold WakeLock.requestAcquire
    simp only [hp, Bool.false_and, Bool.false_eq_true, if_false]
    rw [hts]
    simp
  rw [request_reduces cfg env type options s hssr hact]
  refine ⟨hcore.1, rfl, ?_, hcore.2, fun h0 => ⟨by rw [hcore.2, h0], ?_⟩⟩
  · simp [allFailedError, List.map_map, Function.comp_def]
  · simp [WakeLock.isSupported, h0]

/-- Witness for C5: with the default four strategies all failing, the request
rejects with the aggregated `STRATEGY_FAILED` error, every strategy having
been attempted once; and the empty configuration attempts nothing and is
unsupported. -/
theorem all_fail_strategy_failed_witness :
    (WakeLock.request cfgDefault envAllFail WLType.screen noOptions orchEmpty).result =
      Except.error (allFailedError (defaultNames.map (failErr envAllFail))) ∧
    (WakeLock.request cfgEmpty envAllFail WLType.screen noOptions orchEmpty).attempts =
        [] ∧
    WakeLock.isSupported cfgEmpty envAllFail = false :=
  ⟨(all_fail_strategy_failed cfgDefault envAllFail WLType.screen noOptions orchEmpty
      rfl rfl rfl (by intro n _; rfl)).1,
   ((all_fail_strategy_failed cfgEmpty envAllFail WLType.screen noOptions orchEmpty
      rfl rfl rfl (by intro n hn; cases hn)).2.2.2.2 rfl).1,
   ((all_fail_strategy_failed cfgEmpty envAllFail WLType.screen noOptions orchEmpty
      rfl rfl rfl (by intro n hn; cases hn)).2.2.2.2 rfl).2⟩

/-! ## C9: the winning strategy is requested twice -/

/-- C9: when the environment makes a strategy succeed after a run of failing
predecessors, `WakeLock.request` invokes the winning strategy's `request`
twice (once inside the performance-measurement wrapper and once again in its
`.then` continuation), so the winning strategy's active set gains two
distinct unreleased sentinels while the orchestrator adopts and tracks only
the second one. -/
theorem winning_strategy_double_request (cfg : WakeLockConfig) (env : OEnv)
    (type : WLType) (options : ReqOptions) (s : OrchState)
    (failed : List String) (w : String) (rest : List String)
    (hssr : env.ssr = false) (hact : s.activeSentinel = none)
    (hp : options.passive.getD cfg.passive = false)
    (hstr : cfg.strategies = failed ++ w :: rest)
    (hf : ∀ n ∈ failed, (env.fail n).isSome) (hw : env.fail w = none)
    (hfresh1 : hget s.nextId s.sentinels = none)
    (hfresh2 : hget (s.nextId + 1) s.sentinels = none) :
    (WakeLock.request cfg env type options s).attempts = failed ++ [w, w] ∧
    (WakeLock.request cfg env type options s).result = Except.ok (s.nextId + 1) ∧
    (WakeLock.request cfg env type options s).state.activeSentinel =
      some (s.nextId + 1) ∧
    hget w (WakeLock.request cfg env type options s).state.strategyActive =
      some ((hget w s.strategyActive).getD [] ++ [s.nextId, s.nextId + 1]) ∧
    hget s.nextId (WakeLock.request cfg env type options s).state.sentinels =
      some { type := type, released := false, _strategy := w, orchListener := false } ∧
    hget (s.nextId + 1) (WakeLock.request cfg env type options s).state.sentinels =
      some { type := type, released := false, _strategy := w, orchListener := true } ∧
    s.nextId ≠ s.nextId + 1 := by
  have h1id : (if cfg.performanceMonitoring then
      { s with monitorRunning := true } else s).nextId = s.nextId := by
    by_cases hm : cfg.performanceMonitoring <;> simp [hm]
  have h1sent : (if cfg.performanceMonitoring then
      { s with monitorRunning := true } else s).sentinels = s.sentinels := by
    by_cases hm : cfg.performanceMonitoring <;> simp [hm]
  have h1str : (if cfg.performanceMonitoring then
      { s with monitorRunning := true } else s).strategyActive = s.strategyActive := by
    by_cases hm : cfg.performanceMonitoring <;> simp [hm]
  have hts := tryStrategies_success env type w rest hw failed
    (if cfg.performanceMonitoring then { s with monitorRunning := true } else s) [] hf
  have sentA : OSentinel :=
    { type := type, released := false, _strategy := w, orchListener := false }
  have hadopt : adoptTwice env w type
      (if cfg.performanceMonitoring then { s with monitorRunning := true } else s) =
      ({ nextId := s.nextId + 1 + 1,
         sentinels := (s.sentinels ++
           [(s.nextId,
             { type := type, released := false, _strategy := w, orchListener := false })]) ++
           [(s.nextId + 1,
             { type := type, released := false, _strategy := w, orchListener := false })],
         strategyActive := hput w
           (((hget w s.strategyActive).getD [] ++ [s.nextId]) ++ [s.nextId + 1])
           (hput w ((hget w s.strategyActive).getD [] ++ [s.nextId]) s.strategyActive),
         activeSentinel := (if cfg.performanceMonitoring then
           { s with monitorRunning := true } else s).activeSentinel,
         currentStrategy := (if cfg.performanceMonitoring then
           { s with monitorRunning := true } else s).currentStrategy,
         isReleasing := (if cfg.performanceMonitoring then
           { s with monitorRunning := true } else s).isReleasing,
         monitorRunning := (if cfg.performanceMonitoring then
           { s with monitorRunning := true } else s).monitorRunning },
       Except.ok (s.nextId + 1)) := by
    simp [adoptTwice, strategyRequest, hw, hget_hput_self, h1id, h1sent, h1str]
  have hgetA : hget s.nextId ((s.sentinels ++
      [(s.nextId,
        { type := type, released := false, _strategy := w, orchListener := false })]) ++
      [(s.nextId + 1,
        { type := type, released := false, _strategy := w, orchListener := false })]) =
      some { type := type, released := false, _strategy := w, orchListener := false } := by
    apply hget_append_of_some
    rw [hget_append_of_none _ _ _ hfresh1]
    simp [hget]
  have hgetB : hget (s.nextId + 1) ((s.sentinels ++
      [(s.nextId,
        { type := type, released := false, _strategy := w, orchListener := false })]) ++
      [(s.nextId + 1,
        { type := type, released := false, _strategy := w, orchListener := false })]) =
      some { type := type, released := false, _strategy := w, orchListener := false } := by
    rw [List.append_assoc, hget_append_of_none _ _ _ hfresh2]
    simp [hget, Nat.succ_ne_self]
  have hra : WakeLock.request cfg env type options s =
      WakeLock.requestAcquire cfg env type options s :=
    request_reduces cfg env type options s hssr hact
  rw [hra]
  unfold WakeLock.requestAcquire
  simp only [hp, Bool.false_and, Bool.false_eq_true, if_false, hstr]
  rw [hts]
  simp only [hadopt]
  unfold WakeLock.setupSentinelListeners
  simp only [hgetB]
  refine ⟨trivial, trivial, trivial, ?_, ?_, ?_, by omega⟩
  · rw [hget_hput_self]
    simp
  · rw [hget_hset_other _ _ _ _ (by omega)]
    exact hgetA
  · rw [hget_hset_self, hgetB]
    rfl

/-- Witness for C9 at the concrete two-strategy run: `screen-wake-lock`
fails, `video-element` wins and is requested twice, leaving sentinels 0 and 1
in its active set with the orchestrator tracking sentinel 1. -/
theorem winning_strategy_double_request_witness :
    (WakeLock.request cfgTwo envFirstFails WLType.screen noOptions orchEmpty).attempts =
      [screenStratName] ++ [videoStratName, videoStratName] ∧
    (WakeLock.request cfgTwo envFirstFails WLType.screen noOptions orchEmpty).result =
      Except.ok (orchEmpty.nextId + 1) ∧
    (WakeLock.request cfgTwo envFirstFails WLType.screen noOptions
        orchEmpty).state.activeSentinel = some (orchEmpty.nextId + 1) ∧
    hget videoStratName (WakeLock.request cfgTwo envFirstFails WLType.screen noOptions
        orchEmpty).state.strategyActive =
      some ((hget videoStratName orchEmpty.strategyActive).getD [] ++
        [orchEmpty.nextId, orchEmpty.nextId + 1]) ∧
    hget orchEmpty.nextId (WakeLock.request cfgTwo envFirstFails WLType.screen noOptions
        orchEmpty).state.sentinels =
      some { type := WLType.screen, released := false, _strategy := videoStratName,
             orchListener := false } ∧
    hget (orchEmpty.nextId + 1) (WakeLock.request cfgTwo envFirstFails WLType.screen
        noOptions orchEmpty).state.sentinels =
      some { type := WLType.screen, released := false, _strategy := videoStratName,
             orchListener := true } ∧
    orchEmpty.nextId ≠ orchEmpty.nextId + 1 :=
  winning_strategy_double_request cfgTwo envFirstFails WLType.screen noOptions orchEmpty
    [screenStratName] videoStratName [] rfl rfl rfl rfl
    (by intro n hn; simp at hn; subst hn; rfl) rfl rfl rfl

/-! ## C7: passive-mode fail-fast and prompt detection -/

/-- C7: a passive request for which `canRequestWithoutPrompt` answered
`false` while `isPassiveModeRecommended` answered `true` rejects with
`PERMISSION_DENIED` before any strategy acquisition is attempted (the state
is untouched and the attempt log empty); and
`PermissionManager.canRequestWithoutPrompt` answers `true` exactly when the
checked permission state is definitively `granted` or `denied` — any
indeterminate outcome yields `false`. -/
theorem passive_fail_fast (cfg : WakeLockConfig) (env : OEnv) (type : WLType)
    (options : ReqOptions) (s : OrchState) (hssr : env.ssr = false)
    (hact : s.activeSentinel = none)
    (hp : options.passive.getD cfg.passive = true)
    (hcr : env.canRequest = false) (hrec : env.passiveRecommended = true) :
    WakeLock.request cfg env type options s =
      ⟨s, [WLEvent.error passiveDeniedError], [], Except.error passiveDeniedError⟩ ∧
    passiveDeniedError.code = WLCode.PERMISSION_DENIED ∧
    (∀ (penv : PMEnv) (ps : PMState) (t : WLType), penv.ssr = false →
      ((PermissionManager.canRequestWithoutPrompt penv ps t).2 = true ↔
        ((PermissionManager.checkWakeLockPermission penv ps t true).2 =
            some PermState.granted ∨
         (PermissionManager.checkWakeLockPermission penv ps t true).2 =
            some PermState.denied))) := by
  refine ⟨?_, rfl, ?_⟩
  · rw [request_reduces cfg env type options s hssr hact]
    unfold WakeLock.requestAcquire
    simp [hp, hcr, hrec]
  · intro penv ps t hssr'
    unfold PermissionManager.canRequestWithoutPrompt
    simp [hssr']

/-- Witness for C7: the concrete passive request against a prompt-risk
environment rejects with `PERMISSION_DENIED`, leaving the state untouched and
the attempt log empty. -/
theorem passive_fail_fast_witness :
    WakeLock.request cfgDefault envPromptRisk WLType.screen passiveOptions orchEmpty =
      ⟨orchEmpty, [WLEvent.error passiveDeniedError], [],
       Except.error passiveDeniedError⟩ :=
  (passive_fail_fast cfgDefault envPromptRisk WLType.screen passiveOptions orchEmpty
    rfl rfl rfl rfl rfl).1

/-! ## C8: the 5-minute permission cache -/

/-- C8: a cached permission entry older than 5 minutes is deleted by
`getCachedPermission` and treated as absent — `checkWakeLockPermission`
behaves exactly as on a cache with the entry removed, querying the platform
afresh — while an entry at most 5 minutes old (with a truthy timestamp) is
returned from the cache. -/
theorem permission_cache_expiry (env : PMEnv) (s : PMState) (type : WLType)
    (ts : Nat) (hssr : env.ssr = false)
    (hts : hget (cacheKeyOf type) s.cacheTimestamps = some ts)
    (hold : env.now - ts > cacheExpiryTime) :
    (PermissionManager.getCachedPermission env s (cacheKeyOf type)).2 = none ∧
    (PermissionManager.getCachedPermission env s (cacheKeyOf type)).1 =
      { permissionCache := herase (cacheKeyOf type) s.permissionCache,
        cacheTimestamps := herase (cacheKeyOf type) s.cacheTimestamps } ∧
    (∀ passive, PermissionManager.checkWakeLockPermission env s type passive =
      PermissionManager.checkWakeLockPermission env
        { permissionCache := herase (cacheKeyOf type) s.permissionCache,
          cacheTimestamps := herase (cacheKeyOf type) s.cacheTimestamps }
        type passive) ∧
    (∀ (s' : PMState) (ts' : Nat) (v : PermState),
      hget (cacheKeyOf type) s'.cacheTimestamps = some ts' → ts' ≠ 0 →
      env.now - ts' ≤ cacheExpiryTime →
      hget (cacheKeyOf type) s'.permissionCache = some v →
      ∀ passive,
        (PermissionManager.checkWakeLockPermission env s' type passive).2 = some v) := by
  have h1 : PermissionManager.getCachedPermission env s (cacheKeyOf type) =
      ({ permissionCache := herase (cacheKeyOf type) s.permissionCache,
         cacheTimestamps := herase (cacheKeyOf type) s.cacheTimestamps }, none) := by
    unfold PermissionManager.getCachedPermission
    rw [hts]
    simp [hold]
  have h2 : PermissionManager.getCachedPermission env
      { permissionCache := herase (cacheKeyOf type) s.permissionCache,
        cacheTimestamps := herase (cacheKeyOf type) s.cacheTimestamps }
      (cacheKeyOf type) =
      ({ permissionCache := herase (cacheKeyOf type) s.permissionCache,
         cacheTimestamps := herase (cacheKeyOf type) s.cacheTimestamps }, none) := by
    unfold PermissionManager.getCachedPermission
    simp [hget_herase_self, herase_idem]
  refine ⟨by rw [h1], by rw [h1], ?_, ?_⟩
  · intro passive
    unfold PermissionManager.checkWakeLockPermission
    simp only [hssr, Bool.false_eq_true, if_false]
    rw [h1, h2]
  · intro s' ts' v hts' hz hfresh hcache passive
    have hnot : ¬(ts' = 0 ∨ env.now - ts' > cacheExpiryTime) :=
      not_or.mpr ⟨hz, not_lt.mpr hfresh⟩
    have hc : PermissionManager.getCachedPermission env s' (cacheKeyOf type) =
        (s', some v) := by
      unfold PermissionManager.getCachedPermission
      rw [hts']
      simp [hnot, hcache]
    unfold PermissionManager.checkWakeLockPermission
    simp only [hssr, Bool.false_eq_true, if_false]
    rw [hc]

/-- Witness for C8: the stale concrete cache entry (age 999900 ms) is
reported absent, and the fresh one (age 100000 ms) is returned from the
cache. -/
theorem permission_cache_expiry_witness :
    (PermissionManager.getCachedPermission pmEnvSample pmStale
        (cacheKeyOf WLType.screen)).2 = none ∧
    (PermissionManager.checkWakeLockPermission pmEnvSample pmFresh
        WLType.screen true).2 = some PermState.denied :=
  ⟨(permission_cache_expiry pmEnvSample pmStale WLType.screen 100 rfl rfl
      (by decide)).1,
   (permission_cache_expiry pmEnvSample pmStale WLType.screen 100 rfl rfl
      (by decide)).2.2.2 pmFresh 900000 PermState.denied rfl (by decide)
      (by decide) rfl true⟩

/-! ## C1 and C10: idempotent re-request -/

/-- C1: for every orchestrator state holding an active, unreleased sentinel,
a further `WakeLock.request` — for any supported kind and any options, with
no intervening release — returns exactly that sentinel with the state
untouched, emits nothing, and performs no strategy acquisition. -/
theorem request_idempotent_when_active (cfg : WakeLockConfig) (env : OEnv)
    (type : WLType) (options : ReqOptions) (s : OrchState) (id : Nat)
    (sent : OSentinel) (hssr : env.ssr = false)
    (hact : s.activeSentinel = some id)
    (hsent : hget id s.sentinels = some sent)
    (hrel : sent.released = false) :
    WakeLock.request cfg env type options s = ⟨s, [], [], Except.ok id⟩ := by
  simp [WakeLock.request, hssr, hact, hsent, hrel]

/-- Witness for C1: re-requesting on the concrete active state returns
sentinel 0 unchanged with no events and no acquisition attempts. -/
theorem request_idempotent_when_active_witness :
    WakeLock.request cfgDefault envAllOk WLType.screen noOptions orchActive =
      ⟨orchActive, [], [], Except.ok 0⟩ :=
  request_idempotent_when_active cfgDefault envAllOk WLType.screen noOptions
    orchActive 0 adoptedSentinel rfl rfl rfl rfl

/-- C10: the already-active guard of `WakeLock.request` never compares the
requested kind with the active sentinel's kind: a screen-kind active sentinel
is returned unchanged by a system-kind request, and a system-kind active
sentinel by a screen-kind request, in both cases without error, without
events and without any acquisition. -/
theorem request_ignores_kind_mismatch (cfg : WakeLockConfig) (env : OEnv)
    (options : ReqOptions) (s : OrchState) (id : Nat) (sent : OSentinel)
    (hssr : env.ssr = false) (hact : s.activeSentinel = some id)
    (hsent : hget id s.sentinels = some sent)
    (hrel : sent.released = false) :
    (sent.type = WLType.screen →
      WakeLock.request cfg env WLType.system options s = ⟨s, [], [], Except.ok id⟩) ∧
    (sent.type = WLType.system →
      WakeLock.request cfg env WLType.screen options s = ⟨s, [], [], Except.ok id⟩) := by
  constructor <;> intro hkind <;> simp [WakeLock.request, hssr, hact, hsent, hrel]

/-- Witness for C10: the concrete screen-kind active sentinel is returned by
a system-kind request, and the system-kind one by a screen-kind request. -/
theorem request_ignores_kind_mismatch_witness :
    WakeLock.request cfgDefault envAllOk WLType.system noOptions orchActive =
        ⟨orchActive, [], [], Except.ok 0⟩ ∧
    WakeLock.request cfgDefault envAllOk WLType.screen noOptions orchActiveSystem =
        ⟨orchActiveSystem, [], [], Except.ok 0⟩ :=
  ⟨(request_ignores_kind_mismatch cfgDefault envAllOk noOptions orchActive 0
      adoptedSentinel rfl rfl rfl rfl).1 rfl,
   (request_ignores_kind_mismatch cfgDefault envAllOk noOptions orchActiveSystem 0
      adoptedSystemSentinel rfl rfl rfl rfl).2 rfl⟩

/-! ## C3: what `WakeLock.release` actually emits

On a successful delegated release the sentinel's listeners run before
`release()` resumes: `onRelease` emits `disabled`/`automatic-release` and
nulls `activeSentinel`, so the subsequent `this.activeSentinel.type` read in
`release()` raises and is converted into an `error` notification; the
`disabled`/`manual-release` emission is unreachable on this path.  The
repository's own release test asserts the `automatic-release` reason. -/

/-- C3 counterexample: on the concrete adopted state, a successful release
emits `disabled`/`automatic-release` followed by an `error` notification —
and no `disabled`/`manual-release` notification at all, contradicting the
claim's success case. -/
theorem release_manual_reason_counterexample :
    WLEvent.disabled WLType.screen manualReleaseReason ∉
        (WakeLock.release orchActive none).2.1 ∧
    (WakeLock.release orchActive none).2.1 =
      [WLEvent.disabled WLType.screen autoReleaseReason, WLEvent.error nullTypeError] := by
  exact ⟨by decide, rfl⟩

/-- C3 (amended): `WakeLock.release` never throws to its caller.  On a
successful delegated release of the adopted active sentinel the wired release
listener emits `disabled` with reason `automatic-release` and clears the
slots, after which `release()`'s own `manual-release` emission dereferences
the nulled slot and surfaces as an `error` notification instead; on a failing
delegated release it emits an `error` notification; in every case it finishes
with the active-sentinel and current-strategy slots cleared, the re-entrancy
flag reset and the performance monitor stopped. -/
theorem release_never_throws_and_clears (s : OrchState) (id : Nat)
    (sent : OSentinel) (u : Option WLErr) (hact : s.activeSentinel = some id)
    (hsent : hget id s.sentinels = some sent) (hrel : sent.released = false)
    (hflag : s.isReleasing = false) (hlis : sent.orchListener = true) :
    (WakeLock.release s u).2.2 = Except.ok () ∧
    (WakeLock.release s u).1.activeSentinel = none ∧
    (WakeLock.release s u).1.currentStrategy = none ∧
    (WakeLock.release s u).1.isReleasing = false ∧
    (WakeLock.release s u).1.monitorRunning = false ∧
    (u = none → (WakeLock.release s u).2.1 =
      [WLEvent.disabled sent.type autoReleaseReason, WLEvent.error nullTypeError]) ∧
    (∀ e, u = some e → (WakeLock.release s u).2.1 = [WLEvent.error e]) := by
  cases u <;>
    simp [WakeLock.release, hact, hsent, hrel, hflag, hlis]

/-- Witness for the amended C3 at the concrete adopted state with a
successful delegated release. -/
theorem release_never_throws_and_clears_witness :
    (WakeLock.release orchActive none).2.2 = Except.ok () ∧
    (WakeLock.release orchActive none).1.activeSentinel = none ∧
    (WakeLock.release orchActive none).1.currentStrategy = none ∧
    (WakeLock.release orchActive none).1.isReleasing = false ∧
    (WakeLock.release orchActive none).1.monitorRunning = false ∧
    ((none : Option WLErr) = none → (WakeLock.release orchActive none).2.1 =
      [WLEvent.disabled adoptedSentinel.type autoReleaseReason,
       WLEvent.error nullTypeError]) ∧
    (∀ e, (none : Option WLErr) = some e →
      (WakeLock.release orchActive none).2.1 = [WLEvent.error e]) :=
  release_never_throws_and_clears orchActive 0 adoptedSentinel none rfl rfl rfl rfl rfl

/-! ## Strategy sentinel lifecycle lemmas -/

theorem timer_releaseSentinel_heap (c : Bool) (s : TimerStrategyState)
    (i j : Nat) (sent : InternalSentinel) (h : hget j s.sentinels = some sent) :
    ∃ sent', hget j (TimerStrategy.releaseSentinel c s i).1.sentinels = some sent' ∧
      (sent._released = true → sent'._released = true) ∧
      (j = i → sent'._released = true) ∧ (j ≠ i → sent' = sent) := by
  unfold TimerStrategy.releaseSentinel
  cases hi : hget i s.sentinels with
  | none =>
      refine ⟨sent, h, fun hr => hr, fun hji => ?_, fun _ => rfl⟩
      subst hji
      rw [h] at hi
      cases hi
  | some senti =>
      by_cases hri : senti._released = true
      · simp only [hri, if_true]
        refine ⟨sent, h, fun hr => hr, fun hji => ?_, fun _ => rfl⟩
        subst hji
        have : sent = senti := by rw [h] at hi; injection hi
        rw [this]
        exact hri
      · simp only [hri, Bool.false_eq_true, if_false]
        by_cases hji : j = i
        · subst hji
          refine ⟨{ senti with _released := true, _releaseListeners := [] }, ?_,
            fun _ => rfl, fun _ => rfl, fun hne => absurd rfl hne⟩
          rw [hget_hset_self, h]
          rfl
        · refine ⟨sent, ?_, fun hr => hr, fun hji' => absurd hji' hji, fun _ => rfl⟩
          rw [hget_hset_other _ _ _ _ hji]
          exact h

theorem timer_sentinelRelease_heap (c : Bool) (s : TimerStrategyState)
    (i j : Nat) (sent : InternalSentinel) (h : hget j s.sentinels = some sent) :
    ∃ sent', hget j (TimerStrategy.sentinelRelease c s i).1.sentinels = some sent' ∧
      (sent._released = true → sent'._released = true) := by
  unfold TimerStrategy.sentinelRelease
  cases hi : hget i s.sentinels with
  | none => exact ⟨sent, h, fun hr => hr⟩
  | some senti =>
      by_cases hri : senti._released = true
      · simp only [hri, if_true]
        exact ⟨sent, h, fun hr => hr⟩
      · simp only [hri, Bool.false_eq_true, if_false]
        by_cases hmem : i ∈ s.activeTimers
        · simp only [hmem, if_true]
          obtain ⟨sent', h', hm, _, _⟩ := timer_releaseSentinel_heap c s i j sent h
          exact ⟨sent', h', hm⟩
        · simp only [hmem, if_false]
          exact ⟨sent, h, fun hr => hr⟩

theorem timer_releaseLoop_heap (c : Nat → Bool) :
    ∀ (ids : List Nat) (s : TimerStrategyState) (j : Nat) (sent : InternalSentinel),
      hget j s.sentinels = some sent →
      ∃ sent', hget j (TimerStrategy.releaseLoop c s ids).1.sentinels = some sent' ∧
        (sent._released = true → sent'._released = true) ∧
        (j ∈ ids → sent'._released = true)
  | [], s, j, sent, h => ⟨sent, h, fun hr => hr, by simp⟩
  | i :: rest, s, j, sent, h => by
      obtain ⟨sent1, h1, hmono1, hji1, _⟩ := timer_releaseSentinel_heap (c i) s i j sent h
      obtain ⟨sent2, h2, hmono2, hmem2⟩ :=
        timer_releaseLoop_heap c rest (TimerStrategy.releaseSentinel (c i) s i).1 j sent1 h1
      refine ⟨sent2, h2, fun hr => hmono2 (hmono1 hr), fun hmem => ?_⟩
      rcases List.mem_cons.mp hmem with hji | hmem'
      · exact hmono2 (hji1 hji)
      · exact hmem2 hmem'

theorem video_releaseSentinel_heap (c : Bool) (s : VideoStrategyState)
    (i j : Nat) (sent : InternalSentinel) (h : hget j s.sentinels = some sent) :
    ∃ sent', hget j (VideoElementStrategy.releaseSentinel c s i).1.sentinels = some sent' ∧
      (sent._released = true → sent'._released = true) ∧
      (j = i → sent'._released = true) ∧ (j ≠ i → sent' = sent) := by
  unfold VideoElementStrategy.releaseSentinel
  cases hi : hget i s.sentinels with
  | none =>
      refine ⟨sent, h, fun hr => hr, fun hji => ?_, fun _ => rfl⟩
      subst hji
      rw [h] at hi
      cases hi
  | some senti =>
      by_cases hri : senti._released = true
      · simp only [hri, if_true]
        refine ⟨sent, h, fun hr => hr, fun hji => ?_, fun _ => rfl⟩
        subst hji
        have : sent = senti := by rw [h] at hi; injection hi
        rw [this]
        exact hri
      · simp only [hri, Bool.false_eq_true, if_false]
        by_cases hji : j = i
        · subst hji
          refine ⟨{ senti with _released := true, _releaseListeners := [] }, ?_,
            fun _ => rfl, fun _ => rfl, fun hne => absurd rfl hne⟩
          rw [hget_hset_self, h]
          rfl
        · refine ⟨sent, ?_, fun hr => hr, fun hji' => absurd hji' hji, fun _ => rfl⟩
          rw [hget_hset_other _ _ _ _ hji]
          exact h

theorem video_sentinelRelease_heap (c : Bool) (s : VideoStrategyState)
    (i j : Nat) (sent : InternalSentinel) (h : hget j s.sentinels = some sent) :
    ∃ sent', hget j (VideoElementStrategy.sentinelRelease c s i).1.sentinels = some sent' ∧
      (sent._released = true → sent'._released = true) := by
  unfold VideoElementStrategy.sentinelRelease
  cases hi : hget i s.sentinels with
  | none => exact ⟨sent, h, fun hr => hr⟩
  | some senti =>
      by_cases hri : senti._released = true
      · simp only [hri, if_true]
        exact ⟨sent, h, fun hr => hr⟩
      · simp only [hri, Bool.false_eq_true, if_false]
        by_cases hmem : i ∈ s.activeElements
        · simp only [hmem, if_true]
          obtain ⟨sent', h', hm, _, _⟩ := video_releaseSentinel_heap c s i j sent h
          exact ⟨sent', h', hm⟩
        · simp only [hmem, if_false]
          exact ⟨sent, h, fun hr => hr⟩

theorem video_releaseLoop_heap (c : Nat → Bool) :
    ∀ (ids : List Nat) (s : VideoStrategyState) (j : Nat) (sent : InternalSentinel),
      hget j s.sentinels = some sent →
      ∃ sent', hget j (VideoElementStrategy.releaseLoop c s ids).1.sentinels = some sent' ∧
        (sent._released = true → sent'._released = true) ∧
        (j ∈ ids → sent'._released = true)
  | [], s, j, sent, h => ⟨sent, h, fun hr => hr, by simp⟩
  | i :: rest, s, j, sent, h => by
      obtain ⟨sent1, h1, hmono1, hji1, _⟩ := video_releaseSentinel_heap (c i) s i j sent h
      obtain ⟨sent2, h2, hmono2, hmem2⟩ :=
        video_releaseLoop_heap c rest (VideoElementStrategy.releaseSentinel (c i) s i).1 j sent1 h1
      refine ⟨sent2, h2, fun hr => hmono2 (hmono1 hr), fun hmem => ?_⟩
      rcases List.mem_cons.mp hmem with hji | hmem'
      · exact hmono2 (hji1 hji)
      · exact hmem2 hmem'

theorem audio_releaseSentinel_heap (c : Bool) (s : AudioStrategyState)
    (i j : Nat) (sent : InternalSentinel) (h : hget j s.sentinels = some sent) :
    ∃ sent', hget j (AudioContextStrategy.releaseSentinel c s i).1.sentinels = some sent' ∧
      (sent._released = true → sent'._released = true) ∧
      (j = i → sent'._released = true) ∧ (j ≠ i → sent' = sent) := by
  unfold AudioContextStrategy.releaseSentinel
  cases hi : hget i s.sentinels with
  | none =>
      refine ⟨sent, h, fun hr => hr, fun hji => ?_, fun _ => rfl⟩
      subst hji
      rw [h] at hi
      cases hi
  | some senti =>
      by_cases hri : senti._released = true
      · simp only [hri, if_true]
        refine ⟨sent, h, fun hr => hr, fun hji => ?_, fun _ => rfl⟩
        subst hji
        have : sent = senti := by rw [h] at hi; injection hi
        rw [this]
        exact hri
      · simp only [hri, Bool.false_eq_true, if_false]
        by_cases hji : j = i
        · subst hji
          refine ⟨{ senti with _released := true, _releaseListeners := [] }, ?_,
            fun _ => rfl, fun _ => rfl, fun hne => absurd rfl hne⟩
          rw [hget_hset_self, h]
          rfl
        · refine ⟨sent, ?_, fun hr => hr, fun hji' => absurd hji' hji, fun _ => rfl⟩
          rw [hget_hset_other _ _ _ _ hji]
          exact h

theorem audio_sentinelRelease_heap (c : Bool) (s : AudioStrategyState)
    (i j : Nat) (sent : InternalSentinel) (h : hget j s.sentinels = some sent) :
    ∃ sent', hget j (AudioContextStrategy.sentinelRelease c s i).1.sentinels = some sent' ∧
      (sent._released = true → sent'._released = true) := by
  unfold AudioContextStrategy.sentinelRelease
  cases hi : hget i s.sentinels with
  | none => exact ⟨sent, h, fun hr => hr⟩
  | some senti =>
      by_cases hri : senti._released = true
      · simp only [hri, if_true]
        exact ⟨sent, h, fun hr => hr⟩
      · simp only [hri, Bool.false_eq_true, if_false]
        by_cases hmem : i ∈ s.activeContexts
        · simp only [hmem, if_true]
          obtain ⟨sent', h', hm, _, _⟩ := audio_releaseSentinel_heap c s i j sent h
          exact ⟨sent', h', hm⟩
        · simp only [hmem, if_false]
          exact ⟨sent, h, fun hr => hr⟩

theorem audio_releaseLoop_heap (c : Nat → Bool) :
    ∀ (ids : List Nat) (s : AudioStrategyState) (j : Nat) (sent : InternalSentinel),
      hget j s.sentinels = some sent →
      ∃ sent', hget j (AudioContextStrategy.releaseLoop c s ids).1.sentinels = some sent' ∧
        (sent._released = true → sent'._released = true) ∧
        (j ∈ ids → sent'._released = true)
  | [], s, j, sent, h => ⟨sent, h, fun hr => hr, by simp⟩
  | i :: rest, s, j, sent, h => by
      obtain ⟨sent1, h1, hmono1, hji1, _⟩ := audio_releaseSentinel_heap (c i) s i j sent h
      obtain ⟨sent2, h2, hmono2, hmem2⟩ :=
        audio_releaseLoop_heap c rest (AudioContextStrategy.releaseSentinel (c i) s i).1 j sent1 h1
      refine ⟨sent2, h2, fun hr => hmono2 (hmono1 hr), fun hmem => ?_⟩
      rcases List.mem_cons.mp hmem with hji | hmem'
      · exact hmono2 (hji1 hji)
      · exact hmem2 hmem'

theorem screen_sentinelRelease_heap (s : ScreenStrategyState) (i j : Nat)
    (p : WrappedSentinel × NativeSentinel) (h : hget j s.sentinels = some p) :
    ∃ p', hget j (ScreenWakeLockStrategy.sentinelRelease s i).1.sentinels = some p' ∧
      (p.1._released = true → p'.1._released = true) ∧
      (j = i → p'.1._released = true) ∧ (j ≠ i → p' = p) := by
  unfold ScreenWakeLockStrategy.sentinelRelease
  cases hi : hget i s.sentinels with
  | none =>
      refine ⟨p, h, fun hr => hr, fun hji => ?_, fun _ => rfl⟩
      subst hji
      rw [h] at hi
      cases hi
  | some q =>
      by_cases hri : q.1._released = true
      · simp only [hri, if_true]
        refine ⟨p, h, fun hr => hr, fun hji => ?_, fun _ => rfl⟩
        subst hji
        have : p = q := by rw [h] at hi; injection hi
        rw [this]
        exact hri
      · simp only [hri, Bool.false_eq_true, if_false]
        by_cases hji : j = i
        · subst hji
          refine ⟨({ q.1 with _released := true, _releaseListeners := [] },
              { q.2 with released := true }), ?_, fun _ => rfl, fun _ => rfl,
              fun hne => absurd rfl hne⟩
          rw [hget_hset_self, h]
          rfl
        · refine ⟨p, ?_, fun hr => hr, fun hji' => absurd hji' hji, fun _ => rfl⟩
          rw [hget_hset_other _ _ _ _ hji]
          exact h

theorem screen_releaseLoop_heap :
    ∀ (ids : List Nat) (s : ScreenStrategyState) (j : Nat)
      (p : WrappedSentinel × NativeSentinel),
      hget j s.sentinels = some p →
      ∃ p', hget j (ScreenWakeLockStrategy.releaseLoop s ids).1.sentinels = some p' ∧
        (p.1._released = true → p'.1._released = true) ∧
        (j ∈ ids → p'.1._released = true)
  | [], s, j, p, h => ⟨p, h, fun hr => hr, by simp⟩
  | i :: rest, s, j, p, h => by
      obtain ⟨p1, h1, hmono1, hji1, _⟩ := screen_sentinelRelease_heap s i j p h
      obtain ⟨p2, h2, hmono2, hmem2⟩ :=
        screen_releaseLoop_heap rest (ScreenWakeLockStrategy.sentinelRelease s i).1 j p1 h1
      refine ⟨p2, h2, fun hr => hmono2 (hmono1 hr), fun hmem => ?_⟩
      rcases List.mem_cons.mp hmem with hji | hmem'
      · exact hmono2 (hji1 hji)
      · exact hmem2 hmem'

/-! ## C2: sentinel release lifecycle -/

/-- C2 counterexample: on the concrete screen strategy state with one
subscriber (listener 0) registered through `addEventListener` — and hence
present on both the wrapped and the native sentinel — a successful release
invokes the subscriber twice (once from the wrapped release loop, once from
the native `release` event), so the claim that each currently registered
release subscriber is notified exactly once fails for the screen strategy. -/
theorem screen_double_notification_counterexample :
    (ScreenWakeLockStrategy.sentinelRelease screenSample 0).2 = [0, 0] ∧
    (ScreenWakeLockStrategy.sentinelRelease screenSample 0).2.count 0 ≠ 1 := by
  exact ⟨rfl, by decide⟩

/-- C2 (amended): for every sentinel of the four strategies the released flag
only ever moves from `false` to `true` and a second release call is a no-op
(no error, no notifications); a successful release by the timer,
video-element and audio-context strategies notifies each currently registered
subscriber exactly once and clears the subscriber set; the screen strategy's
wrapped sentinel, whose subscribers are registered on both the wrapped and
the native sentinel, instead notifies each subscriber twice on a successful
explicit release (wrapped loop plus native release event) while likewise
clearing the wrapped subscriber set and never reverting the released flag. -/
theorem sentinel_release_lifecycle :
    (∀ (c : Bool) (s : TimerStrategyState) (id : Nat) (sent : InternalSentinel),
      hget id s.sentinels = some sent → sent._released = false →
      id ∈ s.activeTimers →
      TimerStrategy.sentinelRelease c s id =
        ({ sentinels :=
             hset id { sent with _released := true, _releaseListeners := [] } s.sentinels,
           activeTimers := s.activeTimers.erase id }, sent._releaseListeners) ∧
      (sent._releaseListeners.Nodup → ∀ l ∈ sent._releaseListeners,
        (TimerStrategy.sentinelRelease c s id).2.count l = 1)) ∧
    (∀ (c : Bool) (s : TimerStrategyState) (id : Nat) (sent : InternalSentinel),
      hget id s.sentinels = some sent → sent._released = true →
      TimerStrategy.sentinelRelease c s id = (s, [])) ∧
    (∀ (c : Bool) (s : TimerStrategyState) (i j : Nat) (sent : InternalSentinel),
      hget j s.sentinels = some sent → sent._released = true →
      ∃ sent', hget j (TimerStrategy.sentinelRelease c s i).1.sentinels = some sent' ∧
        sent'._released = true) ∧
    (∀ (c : Bool) (s : VideoStrategyState) (id : Nat) (sent : InternalSentinel),
      hget id s.sentinels = some sent → sent._released = false →
      id ∈ s.activeElements →
      VideoElementStrategy.sentinelRelease c s id =
        ({ sentinels :=
             hset id { sent with _released := true, _releaseListeners := [] } s.sentinels,
           activeElements := s.activeElements.erase id }, sent._releaseListeners) ∧
      (sent._releaseListeners.Nodup → ∀ l ∈ sent._releaseListeners,
        (VideoElementStrategy.sentinelRelease c s id).2.count l = 1)) ∧
    (∀ (c : Bool) (s : VideoStrategyState) (id : Nat) (sent : InternalSentinel),
      hget id s.sentinels = some sent → sent._released = true →
      VideoElementStrategy.sentinelRelease c s id = (s, [])) ∧
    (∀ (c : Bool) (s : VideoStrategyState) (i j : Nat) (sent : InternalSentinel),
      hget j s.sentinels = some sent → sent._released = true →
      ∃ sent', hget j (VideoElementStrategy.sentinelRelease c s i).1.sentinels =
        some sent' ∧ sent'._released = true) ∧
    (∀ (c : Bool) (s : AudioStrategyState) (id : Nat) (sent : InternalSentinel),
      hget id s.sentinels = some sent → sent._released = false →
      id ∈ s.activeContexts →
      AudioContextStrategy.sentinelRelease c s id =
        ({ sentinels :=
             hset id { sent with _released := true, _releaseListeners := [] } s.sentinels,
           activeContexts := s.activeContexts.erase id }, sent._releaseListeners) ∧
      (sent._releaseListeners.Nodup → ∀ l ∈ sent._releaseListeners,
        (AudioContextStrategy.sentinelRelease c s id).2.count l = 1)) ∧
    (∀ (c : Bool) (s : AudioStrategyState) (id : Nat) (sent : InternalSentinel),
      hget id s.sentinels = some sent → sent._released = true →
      AudioContextStrategy.sentinelRelease c s id = (s, [])) ∧
    (∀ (c : Bool) (s : AudioStrategyState) (i j : Nat) (sent : InternalSentinel),
      hget j s.sentinels = some sent → sent._released = true →
      ∃ sent', hget j (AudioContextStrategy.sentinelRelease c s i).1.sentinels =
        some sent' ∧ sent'._released = true) ∧
    (∀ (s : ScreenStrategyState) (id : Nat) (w : WrappedSentinel) (n : NativeSentinel),
      hget id s.sentinels = some (w, n) → w._released = false →
      ScreenWakeLockStrategy.sentinelRelease s id =
        ({ sentinels := hset id
             ({ w with _released := true, _releaseListeners := [] },
              { n with released := true }) s.sentinels,
           activeSentinels := s.activeSentinels.erase id },
         w._releaseListeners ++ n.listeners)) ∧
    (∀ (s : ScreenStrategyState) (id : Nat) (w : WrappedSentinel) (n : NativeSentinel),
      hget id s.sentinels = some (w, n) → w._released = true →
      ScreenWakeLockStrategy.sentinelRelease s id = (s, [])) ∧
    (∀ (s : ScreenStrategyState) (i j : Nat) (p : WrappedSentinel × NativeSentinel),
      hget j s.sentinels = some p → p.1._released = true →
      ∃ p', hget j (ScreenWakeLockStrategy.sentinelRelease s i).1.sentinels = some p' ∧
        p'.1._released = true) ∧
    (∀ (s : ScreenStrategyState) (id : Nat) (w : WrappedSentinel) (n : NativeSentinel)
       (L : List Nat), hget id s.sentinels = some (w, n) → w._released = false →
      w._releaseListeners = L → n.listeners = L → L.Nodup →
      ∀ l ∈ L, (ScreenWakeLockStrategy.sentinelRelease s id).2.count l = 2) := by
  have htimer : ∀ (c : Bool) (s : TimerStrategyState) (id : Nat)
      (sent : InternalSentinel), hget id s.sentinels = some sent →
      sent._released = false → id ∈ s.activeTimers →
      TimerStrategy.sentinelRelease c s id =
        ({ sentinels :=
             hset id { sent with _released := true, _releaseListeners := [] } s.sentinels,
           activeTimers := s.activeTimers.erase id }, sent._releaseListeners) := by
    intro c s id sent h hrel hmem
    unfold TimerStrategy.sentinelRelease TimerStrategy.releaseSentinel
    rw [h]
    simp [hrel, hmem]
  have hvideo : ∀ (c : Bool) (s : VideoStrategyState) (id : Nat)
      (sent : InternalSentinel), hget id s.sentinels = some sent →
      sent._released = false → id ∈ s.activeElements →
      VideoElementStrategy.sentinelRelease c s id =
        ({ sentinels :=
             hset id { sent with _released := true, _releaseListeners := [] } s.sentinels,
           activeElements := s.activeElements.erase id }, sent._releaseListeners) := by
    intro c s id sent h hrel hmem
    unfold VideoElementStrategy.sentinelRelease VideoElementStrategy.releaseSentinel
    rw [h]
    simp [hrel, hmem]
  have haudio : ∀ (c : Bool) (s : AudioStrategyState) (id : Nat)
      (sent : InternalSentinel), hget id s.sentinels = some sent →
      sent._released = false → id ∈ s.activeContexts →
      AudioContextStrategy.sentinelRelease c s id =
        ({ sentinels :=
             hset id { sent with _released := true, _releaseListeners := [] } s.sentinels,
           activeContexts := s.activeContexts.erase id }, sent._releaseListeners) := by
    intro c s id sent h hrel hmem
    unfold AudioContextStrategy.sentinelRelease AudioContextStrategy.releaseSentinel
    rw [h]
    simp [hrel, hmem]
  have hscreen : ∀ (s : ScreenStrategyState) (id : Nat) (w : WrappedSentinel)
      (n : NativeSentinel), hget id s.sentinels = some (w, n) →
      w._released = false →
      ScreenWakeLockStrategy.sentinelRelease s id =
        ({ sentinels := hset id
             ({ w with _released := true, _releaseListeners := [] },
              { n with released := true }) s.sentinels,
           activeSentinels := s.activeSentinels.erase id },
         w._releaseListeners ++ n.listeners) := by
    intro s id w n h hrel
    unfold ScreenWakeLockStrategy.sentinelRelease
    rw [h]
    simp [hrel]
  refine ⟨?_, ?_, ?_, ?_, ?_, ?_, ?_, ?_, ?_, hscreen, ?_, ?_, ?_⟩
  · intro c s id sent h hrel hmem
    refine ⟨htimer c s id sent h hrel hmem, fun hnd l hl => ?_⟩
    rw [htimer c s id sent h hrel hmem]
    exact List.count_eq_one_of_mem hnd hl
  · intro c s id sent h hrel
    unfold TimerStrategy.sentinelRelease
    rw [h]
    simp [hrel]
  · intro c s i j sent h hrel
    obtain ⟨sent', h', hm⟩ := timer_sentinelRelease_heap c s i j sent h
    exact ⟨sent', h', hm hrel⟩
  · intro c s id sent h hrel hmem
    refine ⟨hvideo c s id sent h hrel hmem, fun hnd l hl => ?_⟩
    rw [hvideo c s id sent h hrel hmem]
    exact List.count_eq_one_of_mem hnd hl
  · intro c s id sent h hrel
    unfold VideoElementStrategy.sentinelRelease
    rw [h]
    simp [hrel]
  · intro c s i j sent h hrel
    obtain ⟨sent', h', hm⟩ := video_sentinelRelease_heap c s i j sent h
    exact ⟨sent', h', hm hrel⟩
  · intro c s id sent h hrel hmem
    refine ⟨haudio c s id sent h hrel hmem, fun hnd l hl => ?_⟩
    rw [haudio c s id sent h hrel hmem]
    exact List.count_eq_one_of_mem hnd hl
  · intro c s id sent h hrel
    unfold AudioContextStrategy.sentinelRelease
    rw [h]
    simp [hrel]
  · intro c s i j sent h hrel
    obtain ⟨sent', h', hm⟩ := audio_sentinelRelease_heap c s i j sent h
    exact ⟨sent', h', hm hrel⟩
  · intro s id w n h hrel
    unfold ScreenWakeLockStrategy.sentinelRelease
    rw [h]
    simp [hrel]
  · intro s i j p h hrel
    obtain ⟨p', h', hm, _, _⟩ := screen_sentinelRelease_heap s i j p h
    exact ⟨p', h', hm hrel⟩
  · intro s id w n L h hrel hw hn hnd l hl
    rw [hscreen s id w n h hrel, hw, hn]
    simp [List.count_append, List.count_eq_one_of_mem hnd hl]

/-- Witness for the amended C2 at the concrete timer and screen states:
the timer sentinel's release fires its two subscribers (once each) and clears
them, while the screen sentinel's release fires its one subscriber twice. -/
theorem sentinel_release_lifecycle_witness :
    TimerStrategy.sentinelRelease false timerSample 0 =
      ({ sentinels :=
           hset 0 { type := WLType.screen, _released := true, _releaseListeners := [] }
             timerSample.sentinels,
         activeTimers := timerSample.activeTimers.erase 0 }, [7, 8]) ∧
    (ScreenWakeLockStrategy.sentinelRelease screenSample 0).2.count 0 = 2 :=
  ⟨((sentinel_release_lifecycle).1 false timerSample 0
      { type := WLType.screen, _released := false, _releaseListeners := [7, 8] }
      rfl rfl (by decide)).1,
   (sentinel_release_lifecycle).2.2.2.2.2.2.2.2.2.2.2.2 screenSample 0
      { type := WLType.screen, _released := false, _releaseListeners := [0] }
      { released := false, listeners := [0] } [0] rfl rfl rfl rfl (by decide) 0
      (by decide)⟩

/-! ## C6: strategy-wide release -/

/-- C6: for each of the four strategies, the strategy-level `release()`
attempts to release every sentinel currently in its active set (the attempt
snapshot equals the active set), an individual sentinel's cleanup failure —
any value of the per-sentinel failure assignment — neither stops the loop nor
changes the outcome, every sentinel of the active set ends up released, and
after `release()` resolves the active set is empty. -/
theorem strategy_release_all :
    (∀ (c : Nat → Bool) (s : TimerStrategyState),
      (TimerStrategy.release c s).2.1 = s.activeTimers ∧
      (TimerStrategy.release c s).1.activeTimers = [] ∧
      ∀ id ∈ s.activeTimers, ∀ sent, hget id s.sentinels = some sent →
        ∃ sent', hget id (TimerStrategy.release c s).1.sentinels = some sent' ∧
          sent'._released = true) ∧
    (∀ (c : Nat → Bool) (s : VideoStrategyState),
      (VideoElementStrategy.release c s).2.1 = s.activeElements ∧
      (VideoElementStrategy.release c s).1.activeElements = [] ∧
      ∀ id ∈ s.activeElements, ∀ sent, hget id s.sentinels = some sent →
        ∃ sent', hget id (VideoElementStrategy.release c s).1.sentinels = some sent' ∧
          sent'._released = true) ∧
    (∀ (c : Nat → Bool) (s : AudioStrategyState),
      (AudioContextStrategy.release c s).2.1 = s.activeContexts ∧
      (AudioContextStrategy.release c s).1.activeContexts = [] ∧
      ∀ id ∈ s.activeContexts, ∀ sent, hget id s.sentinels = some sent →
        ∃ sent', hget id (AudioContextStrategy.release c s).1.sentinels = some sent' ∧
          sent'._released = true) ∧
    (∀ (s : ScreenStrategyState),
      (ScreenWakeLockStrategy.release s).2.1 = s.activeSentinels ∧
      (ScreenWakeLockStrategy.release s).1.activeSentinels = [] ∧
      ∀ id ∈ s.activeSentinels, ∀ p, hget id s.sentinels = some p →
        ∃ p', hget id (ScreenWakeLockStrategy.release s).1.sentinels = some p' ∧
          p'.1._released = true) := by
  refine ⟨fun c s => ⟨rfl, rfl, fun id hmem sent h => ?_⟩,
          fun c s => ⟨rfl, rfl, fun id hmem sent h => ?_⟩,
          fun c s => ⟨rfl, rfl, fun id hmem sent h => ?_⟩,
          fun s => ⟨rfl, rfl, fun id hmem p h => ?_⟩⟩
  · obtain ⟨sent', h', _, hm⟩ := timer_releaseLoop_heap c s.activeTimers s id sent h
    exact ⟨sent', h', hm hmem⟩
  · obtain ⟨sent', h', _, hm⟩ := video_releaseLoop_heap c s.activeElements s id sent h
    exact ⟨sent', h', hm hmem⟩
  · obtain ⟨sent', h', _, hm⟩ := audio_releaseLoop_heap c s.activeContexts s id sent h
    exact ⟨sent', h', hm hmem⟩
  · obtain ⟨p', h', _, hm⟩ := screen_releaseLoop_heap s.activeSentinels s id p h
    exact ⟨p', h', hm hmem⟩

/-- Witness for C6 at the concrete strategy states, with every per-sentinel
cleanup made to fail: the snapshot is attempted, the active sets end empty
and the tracked sentinels end released. -/
theorem strategy_release_all_witness :
    (TimerStrategy.release (fun _ => true) timerSample).2.1 =
      timerSample.activeTimers ∧
    (VideoElementStrategy.release (fun _ => true) videoSample).1.activeElements = [] ∧
    (∃ sent', hget 1 (AudioContextStrategy.release (fun _ => true)
        audioSample).1.sentinels = some sent' ∧ sent'._released = true) ∧
    (∃ p', hget 0 (ScreenWakeLockStrategy.release screenSample).1.sentinels =
        some p' ∧ p'.1._released = true) :=
  ⟨(strategy_release_all.1 (fun _ => true) timerSample).1,
   (strategy_release_all.2.1 (fun _ => true) videoSample).2.1,
   (strategy_release_all.2.2.1 (fun _ => true) audioSample).2.2 1 (by decide)
     { type := WLType.screen, _released := false, _releaseListeners := [5] } rfl,
   (strategy_release_all.2.2.2 screenSample).2.2 0 (by decide)
     ({ type := WLType.screen, _released := false, _releaseListeners := [0] },
      { released := false, listeners := [0] }) rfl⟩

end AwakeLock
